import Mathlib

/-!
Storefront scripts: quantity resolver, mini-cart refresh, checkout summary.

A shallow embedding of three browser scripts of the storefront:

* `static/js/product-detail.js`  (namespace `ProductDetail`)
* `static/js/main.js`            (namespace `Main`)
* `static/js/checkout.js`        (namespace `Checkout`)

The scripts are event listeners over a page; each listener becomes a function
on a record that holds the elements it reads and writes (an element the page
may lack is an `Option`) together with the closure variables of the script.

The platform layer (namespace `JS`).

The scripts lean on a handful of ECMAScript built-ins.  They are modelled as
follows.

* A number is `JSNum`: `nan`, `inf neg` (plus or minus `Infinity`), or
  `dec m e`, the finite value `m / 10 ^ e`.  Every finite double is such a
  decimal, and sums and products of decimals are decimals; rounding to 53 bits,
  overflow and the sign of zero are not modelled.
* `parseInt` returns `Option Int`, `none` standing for `NaN`; the radix
  argument `0` stands for an omitted radix.  The quantities computed from its
  results are `Int` as well: they are the code's doubles for magnitudes up to
  `2 ^ 53`, past which a double no longer holds every integer.
* `parseFloat` and `Number` follow the `StrDecimalLiteral` /
  `StrNumericLiteral` grammars.
* `toFixed2` is `Number.prototype.toFixed(2)`: round half up on the magnitude,
  sign in front, and `ToString` for magnitudes from `10 ^ 21` on.
* `numToString` is `ToString` on numbers: plain notation, and exponent notation
  below `10 ^ -6` and from `10 ^ 21` on, over the digits of the exact decimal.
* `encodeURIComponent` escapes the UTF-8 bytes of every character outside the
  unreserved set.

Left out of the page records: the main image, the thumbnails and the colour
indicator of the product page (they are written, never read back, by the code
modelled here), CSS classes other than the ones named below, and the console.
-/

namespace JS

/-- A JavaScript number: `NaN`, an infinity (`neg = true` for `-Infinity`), or
the finite decimal `m / 10 ^ e`. -/
inductive JSNum where
  | nan
  | inf (neg : Bool)
  | dec (m : Int) (e : Nat)
  deriving DecidableEq

namespace JSNum

/-- The number denoted by an integer. -/
def ofInt (n : Int) : JSNum := dec n 0

/-- The number zero. -/
def zero : JSNum := dec 0 0

/-- ToBoolean on a number: `NaN` and `0` are falsy, all else is truthy. -/
def truthy : JSNum → Bool
  | nan => false
  | inf _ => true
  | dec m _ => m != 0

/-- The expression `x || d` for a number `x`. -/
def orElse (x d : JSNum) : JSNum := if x.truthy then x else d

/-- The test `isNaN(x)`. -/
def isNaN : JSNum → Bool
  | nan => true
  | _ => false

/-- The comparison `x < y`; false as soon as one side is `NaN`. -/
def lt : JSNum → JSNum → Bool
  | dec m₁ e₁, dec m₂ e₂ => decide (m₁ * 10 ^ e₂ < m₂ * 10 ^ e₁)
  | dec _ _, inf neg => !neg
  | inf neg, dec _ _ => neg
  | inf n₁, inf n₂ => n₁ && !n₂
  | _, _ => false

/-- The comparison `x <= y`; false as soon as one side is `NaN`. -/
def le : JSNum → JSNum → Bool
  | dec m₁ e₁, dec m₂ e₂ => decide (m₁ * 10 ^ e₂ ≤ m₂ * 10 ^ e₁)
  | dec _ _, inf neg => !neg
  | inf neg, dec _ _ => neg
  | inf n₁, inf n₂ => n₁ || !n₂
  | _, _ => false

/-- The comparison `x > y`. -/
def gt (x y : JSNum) : Bool := lt y x

/-- The comparison `x >= y`. -/
def ge (x y : JSNum) : Bool := le y x

/-- The product `x * y`. -/
def mul : JSNum → JSNum → JSNum
  | dec m₁ e₁, dec m₂ e₂ => dec (m₁ * m₂) (e₁ + e₂)
  | inf n, dec m _ => if m = 0 then nan else inf (xor n (decide (m < 0)))
  | dec m _, inf n => if m = 0 then nan else inf (xor n (decide (m < 0)))
  | inf n₁, inf n₂ => inf (xor n₁ n₂)
  | _, _ => nan

/-- The sum `x + y` of two numbers. -/
def add : JSNum → JSNum → JSNum
  | dec m₁ e₁, dec m₂ e₂ => dec (m₁ * 10 ^ e₂ + m₂ * 10 ^ e₁) (e₁ + e₂)
  | inf n, dec _ _ => inf n
  | dec _ _, inf n => inf n
  | inf n₁, inf n₂ => if n₁ = n₂ then inf n₁ else nan
  | _, _ => nan

end JSNum

/-- The characters `StrWhiteSpaceChar` covers: white space and line
terminators. -/
def isWhiteSpace (c : Char) : Bool :=
  let n := c.toNat
  n == 0x09 || n == 0x0A || n == 0x0B || n == 0x0C || n == 0x0D || n == 0x20 ||
  n == 0xA0 || n == 0x1680 || (0x2000 ≤ n && n ≤ 0x200A) || n == 0x2028 ||
  n == 0x2029 || n == 0x202F || n == 0x205F || n == 0x3000 || n == 0xFEFF

/-- Drop leading white space. -/
def trimStart (cs : List Char) : List Char := cs.dropWhile isWhiteSpace

/-- Drop trailing white space. -/
def trimEnd (cs : List Char) : List Char := (trimStart cs.reverse).reverse

/-- The value of `c` as a digit of the given radix, when it is one. -/
def digitVal (radix : Nat) (c : Char) : Option Nat :=
  let n := c.toNat
  let v : Option Nat :=
    if 48 ≤ n ∧ n ≤ 57 then some (n - 48)
    else if 97 ≤ n ∧ n ≤ 122 then some (n - 87)
    else if 65 ≤ n ∧ n ≤ 90 then some (n - 55)
    else none
  match v with
  | some d => if d < radix then some d else none
  | none => none

/-- Read the longest run of radix digits at the head of the input, continuing
the value `acc` and the digit count `k`; returns value, count and the rest. -/
def takeDigits (radix : Nat) : List Char → Nat → Nat → Nat × Nat × List Char
  | [], acc, k => (acc, k, [])
  | c :: cs, acc, k =>
    match digitVal radix c with
    | some d => takeDigits radix cs (acc * radix + d) (k + 1)
    | none => (acc, k, c :: cs)

/-- Whether the input begins with the given characters. -/
def startsWith : List Char → List Char → Bool
  | [], _ => true
  | _ :: _, [] => false
  | p :: ps, c :: cs => p == c && startsWith ps cs

/-- An optional sign at the head of the input: whether it is a minus, and the
input after the sign. -/
def stripSign : List Char → Bool × List Char
  | '-' :: r => (true, r)
  | '+' :: r => (false, r)
  | t => (false, t)

/-- The built-in `parseInt(string, radix)`; radix `0` is the omitted radix.
`none` is `NaN`. -/
def parseInt (s : String) (radix : Nat) : Option Int :=
  match stripSign (trimStart s.data) with
  | (neg, t₁) =>
    if radix ≠ 0 ∧ (radix < 2 ∨ 36 < radix) then none
    else
      let hex : Bool := (radix = 0 ∨ radix = 16) ∧
        (startsWith ['0', 'x'] t₁ ∨ startsWith ['0', 'X'] t₁)
      let r : Nat := if hex then 16 else if radix = 0 then 10 else radix
      let t₂ := if hex then t₁.drop 2 else t₁
      match takeDigits r t₂ 0 0 with
      | (_, 0, _) => none
      | (v, _, _) => some (if neg then -(v : Int) else (v : Int))

/-- Strip the trailing zeros of a decimal `m / 10 ^ e`. -/
def normDec (m : Int) : Nat → JSNum
  | 0 => JSNum.dec m 0
  | e + 1 => if m % 10 = 0 then normDec (m / 10) e else JSNum.dec m (e + 1)

/-- The optional exponent part of a decimal literal: an `e` or `E`, an optional
sign and at least one digit.  Returns the exponent and the rest; exponent `0`
and the input itself when no exponent part is there. -/
def scanExponent (cs : List Char) : Int × List Char :=
  match cs with
  | c :: r =>
    if c = 'e' ∨ c = 'E' then
      match stripSign r with
      | (neg, r₁) =>
        match takeDigits 10 r₁ 0 0 with
        | (_, 0, _) => (0, cs)
        | (x, _, rest) => (if neg then -(x : Int) else (x : Int), rest)
    else (0, cs)
  | [] => (0, cs)

/-- The longest head of the input that is a `StrDecimalLiteral`, with its value
and the rest of the input; `none` when no head is one. -/
def scanStrDecimal (cs : List Char) : Option (JSNum × List Char) :=
  match stripSign cs with
  | (neg, body) =>
    if startsWith "Infinity".data body then some (JSNum.inf neg, body.drop 8)
    else
      match takeDigits 10 body 0 0 with
      | (a, ka, r₁) =>
        let frac : Nat × Nat × List Char := match r₁ with
          | '.' :: r => takeDigits 10 r a 0
          | _ => (a, 0, r₁)
        match frac with
        | (mant, kb, r₂) =>
          if ka = 0 ∧ kb = 0 then none
          else
            match scanExponent r₂ with
            | (x, rest) =>
              let sm : Int := if neg then -(mant : Int) else (mant : Int)
              let net : Int := x - (kb : Int)
              let v := if 0 ≤ net then JSNum.dec (sm * 10 ^ net.toNat) 0
                else normDec sm (-net).toNat
              some (v, rest)

/-- The built-in `parseFloat(string)`. -/
def parseFloat (s : String) : JSNum :=
  match scanStrDecimal (trimStart s.data) with
  | some (v, _) => v
  | none => JSNum.nan

/-- A non-decimal integer literal body: at least one digit of the radix and
nothing else. -/
def radixLiteral (radix : Nat) (cs : List Char) : JSNum :=
  match takeDigits radix cs 0 0 with
  | (_, 0, _) => JSNum.nan
  | (v, _, []) => JSNum.dec (v : Int) 0
  | (_, _, _ :: _) => JSNum.nan

/-- The conversion `Number(string)`: the whole trimmed string must be a numeric
literal; the empty string is `0`. -/
def Number (s : String) : JSNum :=
  let t := trimEnd (trimStart s.data)
  match t with
  | [] => JSNum.dec 0 0
  | '0' :: 'x' :: r => radixLiteral 16 r
  | '0' :: 'X' :: r => radixLiteral 16 r
  | '0' :: 'o' :: r => radixLiteral 8 r
  | '0' :: 'O' :: r => radixLiteral 8 r
  | '0' :: 'b' :: r => radixLiteral 2 r
  | '0' :: 'B' :: r => radixLiteral 2 r
  | _ =>
    match scanStrDecimal t with
    | some (v, []) => v
    | _ => JSNum.nan

/-- Decimal digits of a natural number. -/
def natToString (n : Nat) : String := String.mk (Nat.toDigits 10 n)

/-- ToString on an integer-valued number. -/
def intToString (n : Int) : String :=
  if n < 0 then "-" ++ natToString n.natAbs else natToString n.natAbs

/-- The digits of `n` padded with zeros on the left to at least `width`. -/
def padDigits (width n : Nat) : List Char :=
  let ds := Nat.toDigits 10 n
  List.replicate (width - ds.length) '0' ++ ds

/-- ToString on the positive magnitude `a / 10 ^ e` (`Number::toString`): with
`k` significant digits and the decimal point after `n` of them, plain notation
for `-6 < n ≤ 21` and exponent notation otherwise. -/
def magnitudeToString (a e : Nat) : String :=
  if a = 0 then "0"
  else
    let ds := Nat.toDigits 10 a
    let s := (ds.reverse.dropWhile (fun c => c == '0')).reverse
    let k := s.length
    let n : Int := (ds.length : Int) - (e : Int)
    if (k : Int) ≤ n ∧ n ≤ 21 then String.mk (s ++ List.replicate (n.toNat - k) '0')
    else if 0 < n ∧ n ≤ 21 then String.mk (s.take n.toNat ++ '.' :: s.drop n.toNat)
    else if -6 < n ∧ n ≤ 0 then String.mk ('0' :: '.' :: List.replicate (-n).toNat '0' ++ s)
    else
      let mant : List Char := match s with
        | [] => []
        | [d] => [d]
        | d :: r => d :: '.' :: r
      String.mk (mant ++ 'e' :: (if n - 1 < 0 then '-' else '+') ::
        Nat.toDigits 10 (n - 1).natAbs)

/-- ToString on a number. -/
def numToString : JSNum → String
  | JSNum.nan => "NaN"
  | JSNum.inf neg => if neg then "-Infinity" else "Infinity"
  | JSNum.dec m e =>
    if m < 0 then "-" ++ magnitudeToString m.natAbs e else magnitudeToString m.natAbs e

/-- The method `x.toFixed(2)`: ToString for a magnitude of `10 ^ 21` or more,
otherwise the magnitude rounded half up to hundredths. -/
def toFixed2 : JSNum → String
  | JSNum.nan => "NaN"
  | JSNum.inf neg => if neg then "-Infinity" else "Infinity"
  | JSNum.dec m e =>
    let a := m.natAbs
    let n := (2 * 100 * a + 10 ^ e) / (2 * 10 ^ e)
    let body := if 10 ^ 21 * 10 ^ e ≤ a then magnitudeToString a e
      else natToString (n / 100) ++ "." ++ String.mk (padDigits 2 (n % 100))
    if m < 0 then "-" ++ body else body

/-- The expression `a || d` for an attribute or field text `a` that may be
undefined: the text when it is defined and not empty. -/
def strOr (a : Option String) (d : String) : String :=
  match a with
  | some s => if s = "" then d else s
  | none => d

/-- The expression `p || d` for the result `p` of `parseInt`. -/
def intOr (p : Option Int) (d : Int) : Int :=
  match p with
  | some n => if n = 0 then d else n
  | none => d

/-- The method `s.replace(a, b)` for one-character strings: the first
occurrence only. -/
def replaceFirst (a b : Char) : List Char → List Char
  | [] => []
  | c :: cs => if c = a then b :: cs else c :: replaceFirst a b cs

/-- A select element: its options and `selectedIndex` (`-1` when none). -/
structure Select (α : Type) where
  options : List α
  selectedIndex : Int

/-- The expression `sel.options[sel.selectedIndex]`, `none` when undefined. -/
def Select.selected {α : Type} (sel : Select α) : Option α :=
  if sel.selectedIndex < 0 then none else sel.options.get? sel.selectedIndex.toNat

end JS


open JS

/-! ## `static/js/product-detail.js` -/

namespace ProductDetail

/-- The data attributes of a variant option that `updateUI` reads for price and
stock (`dataset.price`, `dataset.stock`); `none` is an absent attribute. -/
structure VariantOption where
  price : Option String
  stock : Option String

/-- The quantity field `#qtyInput`: its text and its `disabled` flag. -/
structure QtyInput where
  value : String
  disabled : Bool

/-- The page as the script sees it, with the closure variables `currentStock`
and `currentPrice`.  A text element is kept by its content, a button by its
`disabled` flag; `none` is an element the page lacks.  The quantity field is
taken to exist: `updateUI` reads `qtyInput.value` without a guard. -/
structure State where
  variantSelect : Option (Select VariantOption)
  qtyInput : QtyInput
  priceText : Option String
  lineTotalText : Option String
  stockHint : Option String
  addBtn : Option Bool
  btnPlus : Option Bool
  btnMinus : Option Bool
  currentStock : Int
  currentPrice : JSNum

/-- The markup of the stock hint when `currentStock <= 0` (line 68). -/
def outOfStockHtml : String :=
  "<i class=\"bi bi-x-circle-fill text-danger\"></i> " ++
  "<span class=\"text-danger fw-medium\">Agotado</span>"

/-- The markup of the stock hint when `currentStock < 5` (line 72). -/
def lowStockHtml (currentStock : Int) : String :=
  "<i class=\"bi bi-exclamation-triangle-fill text-warning\"></i> " ++
  "<span class=\"text-warning fw-medium\">¡Solo quedan " ++ intToString currentStock ++
  " unidades!</span>"

/-- The markup of the stock hint otherwise (line 76). -/
def availableHtml (currentStock : Int) : String :=
  "<i class=\"bi bi-check-circle-fill text-success\"></i> " ++
  "<span class=\"text-success fw-medium\">Disponible (" ++ intToString currentStock ++
  " en stock)</span>"

/-- The price read from the option (lines 31-32):
`parseFloat((opt.dataset.price || "0").replace(',', '.')) || 0`. -/
def readPrice (opt : VariantOption) : JSNum :=
  (parseFloat (String.mk (replaceFirst ',' '.' (strOr opt.price "0").data))).orElse JSNum.zero

/-- The stock read from the option (line 33): `parseInt(opt.dataset.stock) || 0`;
an absent attribute is the text `undefined` to `parseInt`. -/
def readStock (opt : VariantOption) : Int :=
  intOr (parseInt (opt.stock.getD "undefined") 0) 0

/-- Lines 54-58 ("Validar cantidad"): the local `qty` and the text of the
quantity field afterwards. -/
def validateQty (currentStock : Int) (value : String) : Int × String :=
  let qty := intOr (parseInt value 0) 1
  if currentStock > 0 ∧ qty > currentStock then (currentStock, intToString currentStock)
  else (qty, value)

/-- The function `updateQuantityButtonsState(currentQty)` (lines 98-102). -/
def updateQuantityButtonsState (s : State) (currentQty : Int) : State :=
  match s.btnMinus, s.btnPlus with
  | some _, some _ =>
    { s with
      btnMinus := some (decide (currentQty ≤ 1))
      btnPlus := some (decide (s.currentStock > 0 ∧ currentQty ≥ s.currentStock)) }
  | _, _ => s

/-- Lines 65-80: the stock hint and the two controls it enables or disables. -/
def updateStockHint (s : State) : State :=
  match s.stockHint with
  | none => s
  | some _ =>
    if s.currentStock ≤ 0 then
      { s with
        stockHint := some outOfStockHtml
        addBtn := s.addBtn.map (fun _ => true)
        qtyInput := { s.qtyInput with disabled := true } }
    else if s.currentStock < 5 then
      { s with
        stockHint := some (lowStockHtml s.currentStock)
        addBtn := s.addBtn.map (fun _ => false)
        qtyInput := { s.qtyInput with disabled := false } }
    else
      { s with
        stockHint := some (availableHtml s.currentStock)
        addBtn := s.addBtn.map (fun _ => false)
        qtyInput := { s.qtyInput with disabled := false } }

/-- The function `updateUI()` (lines 24-87). -/
def updateUI (s : State) : State :=
  match s.variantSelect with
  | none => s
  | some sel =>
    match sel.selected with
    | none => s
    | some opt =>
      let currentPrice := readPrice opt
      let currentStock := readStock opt
      let v := validateQty currentStock s.qtyInput.value
      let qty := v.1
      let total := currentPrice.mul (JSNum.ofInt qty)
      let s₁ : State :=
        { s with
          currentPrice := currentPrice
          currentStock := currentStock
          qtyInput := { s.qtyInput with value := v.2 }
          priceText := s.priceText.map (fun _ => toFixed2 currentPrice)
          lineTotalText := s.lineTotalText.map (fun _ => toFixed2 total) }
      updateQuantityButtonsState (updateStockHint s₁) qty

/-- The quantity `updateUI` computes on a state whose closure variable
`currentStock` is current: the effective quantity of the state. -/
def effectiveQty (s : State) : Int := (validateQty s.currentStock s.qtyInput.value).1

/-- Lines 109-111 of the `input` listener: the local `val`, from the parsed
field text `p`. -/
def inputVal (currentStock : Int) (p : Option Int) : Int :=
  let val₀ : Int := match p with
    | none => 1
    | some v => if v < 1 then 1 else v
  if currentStock > 0 ∧ val₀ > currentStock then currentStock else val₀

/-- The `input` listener of the quantity field (lines 108-114); the field
already holds the typed text. -/
def onQtyInput (s : State) : State :=
  let p := parseInt s.qtyInput.value 0
  let val := inputVal s.currentStock p
  let s₁ : State :=
    if p ≠ some val then { s with qtyInput := { s.qtyInput with value := intToString val } }
    else s
  updateUI s₁

/-- The `blur` listener of the quantity field (lines 115-118). -/
def onQtyBlur (s : State) : State :=
  let s₁ : State :=
    if s.qtyInput.value = "" then { s with qtyInput := { s.qtyInput with value := "1" } }
    else s
  updateUI s₁

/-- The `click` listener of `#btnPlus` (lines 122-128). -/
def onPlusClick (s : State) : State :=
  let qty := intOr (parseInt s.qtyInput.value 0) 1
  if s.currentStock = 0 ∨ qty < s.currentStock then
    updateUI { s with qtyInput := { s.qtyInput with value := intToString (qty + 1) } }
  else s

/-- The `click` listener of `#btnMinus` (lines 131-137). -/
def onMinusClick (s : State) : State :=
  let qty := intOr (parseInt s.qtyInput.value 0) 1
  if qty > 1 then
    updateUI { s with qtyInput := { s.qtyInput with value := intToString (qty - 1) } }
  else s

/-- The events the listeners of lines 104-138 are registered for. -/
inductive Event where
  | variantChange (index : Int)
  | qtyInput (text : String)
  | qtyBlur
  | plusClick
  | minusClick

/-- Deliver one event: the page changes as the user acted (the chosen option,
the typed text), then the listener registered for the event runs.  A listener
is registered only on an element that exists (lines 105, 121, 130).  An event
is delivered whether or not its control is disabled; a browser delivers none to
a disabled control, so what a browser can do is among the runs of `step`. -/
def step (s : State) : Event → State
  | Event.variantChange i =>
    match s.variantSelect with
    | none => s
    | some sel => updateUI { s with variantSelect := some { sel with selectedIndex := i } }
  | Event.qtyInput text => onQtyInput { s with qtyInput := { s.qtyInput with value := text } }
  | Event.qtyBlur => onQtyBlur s
  | Event.plusClick =>
    match s.btnPlus with
    | none => s
    | some _ => onPlusClick s
  | Event.minusClick =>
    match s.btnMinus with
    | none => s
    | some _ => onMinusClick s

/-- The script at `DOMContentLoaded` (lines 20-21 and 156): the closure
variables start at `0` and `updateUI()` runs once. -/
def init (page : State) : State :=
  updateUI { page with currentStock := 0, currentPrice := JSNum.zero }

/-- The page after initialisation and a sequence of events. -/
def run (page : State) (events : List Event) : State :=
  events.foldl step (init page)

end ProductDetail

/-! ## `static/js/main.js` -/

namespace Main

/-- A value read from a parsed JSON object or passed to a function.  An array
or object is kept by the text `ToString` gives it, which is all the code
modelled here can observe of it. -/
inductive JsVal where
  | undefined
  | null
  | bool (b : Bool)
  | num (x : JSNum)
  | str (s : String)
  | object (text : String)

/-- ToBoolean on a value. -/
def JsVal.truthy : JsVal → Bool
  | JsVal.undefined => false
  | JsVal.null => false
  | JsVal.bool b => b
  | JsVal.num x => x.truthy
  | JsVal.str s => decide (s ≠ "")
  | JsVal.object _ => true

/-- ToString on a value. -/
def JsVal.toStr : JsVal → String
  | JsVal.undefined => "undefined"
  | JsVal.null => "null"
  | JsVal.bool b => if b then "true" else "false"
  | JsVal.num x => numToString x
  | JsVal.str s => s
  | JsVal.object text => text

/-- The cart badge `#cartBadge`: its text and whether it carries the class
`d-none`. -/
structure Badge where
  textContent : String
  hidden : Bool
  deriving DecidableEq

/-- The part of the page the mini-cart code touches: the inner HTML of
`#miniCartBody` and the badge; `none` is an element the page lacks. -/
structure CartPage where
  miniCartBody : Option String
  cartBadge : Option Badge
  deriving DecidableEq

/-- The function `setCartBadge(n)` (lines 13-20). -/
def setCartBadge (n : JsVal) (s : CartPage) : CartPage :=
  match s.cartBadge with
  | none => s
  | some _ =>
    let arg : JsVal := if n.truthy then n else JsVal.num JSNum.zero
    let val := parseInt arg.toStr 10
    let text := match val with
      | some v => intToString v
      | none => "NaN"
    let hide : Bool := match val with
      | some v => decide (v ≤ 0)
      | none => false
    { s with cartBadge := some { textContent := text, hidden := hide } }

/-- The three properties `refreshMiniCart` reads from the parsed body. -/
structure CartSummary where
  ok : JsVal
  cart_count : JsVal
  mini_cart_html : JsVal

/-- What `res.json()` gives: a rejection for a body that is not JSON, the value
`null`, or a value whose properties can be read.  A JSON number, string,
boolean or array has none of the three properties: it is a `value` with all
three `undefined`. -/
inductive Body where
  | malformed
  | null
  | value (data : CartSummary)

/-- How `fetch` settles: a rejection, or a response with its status and body. -/
inductive FetchOutcome where
  | rejected
  | response (status : Nat) (body : Body)

/-- The property `res.ok` of a response: a status from 200 to 299. -/
def statusOk (status : Nat) : Bool := decide (200 ≤ status ∧ status ≤ 299)

/-- What the `try` block can throw. -/
inductive JsError where
  | fetchRejected
  | syntaxError
  | typeError

/-- The placeholder while loading (line 41). -/
def loadingHtml : String := "<div class=\"text-muted small p-3\">Cargando…</div>"

/-- The placeholder for a response that is not ok (lines 58-61). -/
def statusErrorHtml (status : Nat) : String :=
  "\n          <div class=\"text-danger small p-3\">\n            Error cargando carrito (" ++
  natToString status ++ ")\n          </div>"

/-- The placeholder for a body with a falsy `ok` (lines 70-73). -/
def notLoadedHtml : String :=
  "\n          <div class=\"text-danger small p-3\">\n" ++
  "            No se pudo cargar el carrito\n          </div>"

/-- The placeholder of the empty cart (line 85). -/
def emptyCartHtml : String := "<div class='text-muted small p-3'>Carrito vacío</div>"

/-- The placeholder written by the `catch` block (lines 93-96). -/
def invalidResponseHtml : String :=
  "\n        <div class=\"text-danger small p-3\">\n" ++
  "          Error: respuesta inválida del servidor\n        </div>"

/-- Write the inner HTML of `#miniCartBody` when the element exists
(`if (body) body.innerHTML = ...`). -/
def setBody (html : String) (s : CartPage) : CartPage :=
  { s with miniCartBody := s.miniCartBody.map (fun _ => html) }

/-- The `try` block of `refreshMiniCart` (lines 45-88).  `url` is
`window.CART_SUMMARY_URL`; the outcome is how the one `fetch` settles.
The function `enhanceMiniCart` only sets animation delays on the items of the
body and is left out. -/
def tryBlock (url : Option String) (o : FetchOutcome) (s : CartPage) : Except JsError CartPage :=
  if strOr url "" = "" then Except.ok s
  else
    match o with
    | FetchOutcome.rejected => Except.error JsError.fetchRejected
    | FetchOutcome.response status body =>
      if ¬ statusOk status then Except.ok (setBody (statusErrorHtml status) s)
      else
        match body with
        | Body.malformed => Except.error JsError.syntaxError
        | Body.null => Except.error JsError.typeError
        | Body.value data =>
          if ¬ data.ok.truthy then Except.ok (setBody notLoadedHtml s)
          else
            let s₁ := setCartBadge data.cart_count s
            let html := if data.mini_cart_html.truthy then data.mini_cart_html.toStr
              else emptyCartHtml
            Except.ok (setBody html s₁)

/-- The function `refreshMiniCart()` (lines 37-99): the loading placeholder, the
`try` block, and the `catch` block for whatever the `try` block throws.  An
`Except.error` result would be an exception leaving the function. -/
def refreshMiniCart (url : Option String) (o : FetchOutcome) (s : CartPage) :
    Except JsError CartPage :=
  let s₀ := setBody loadingHtml s
  match tryBlock url o s₀ with
  | Except.ok s₁ => Except.ok s₁
  | Except.error _ => Except.ok (setBody invalidResponseHtml s₀)

/-- The data attributes of a variant option that `refreshDetail` reads for
price and stock. -/
structure VariantOption where
  price : Option String
  stock : Option String

/-- The add button `#addBtn`: its `disabled` flag and whether it carries the
class `disabled`. -/
structure AddBtn where
  disabled : Bool
  classDisabled : Bool
  deriving DecidableEq

/-- The product page as `refreshDetail` sees it.  `qty` is the text of
`#qtyInput` when the field exists.  The elements `#priceText` and
`#lineTotalText` are taken to exist: lines 182-183 write them without a guard. -/
structure DetailPage where
  sel : Option (Select VariantOption)
  qty : Option String
  priceText : String
  lineTotalText : String
  stockHint : Option String
  addBtn : Option AddBtn

/-- The function `formatMoneyDetail(n)` (lines 122-125) on a number. -/
def formatMoneyDetail (n : JSNum) : String :=
  toFixed2 (n.orElse JSNum.zero)

/-- The expression `Number(a || 0)` for a data attribute `a` (lines 174, 175). -/
def numberOrZero (a : Option String) : JSNum :=
  match a with
  | none => JSNum.zero
  | some t => if t = "" then JSNum.zero else Number t

/-- Line 174: the price of the selected option, `0` without one. -/
def detailPrice (opt : Option VariantOption) : JSNum :=
  numberOrZero (opt.bind (fun o => o.price))

/-- Line 175: the stock of the selected option, `0` without one. -/
def detailStock (opt : Option VariantOption) : JSNum :=
  numberOrZero (opt.bind (fun o => o.stock))

/-- Lines 177-179: the local `q` of `refreshDetail`. -/
def detailQty (stock : JSNum) (qty : Option String) : JSNum :=
  let p := parseInt (strOr qty "1") 10
  let q₀ : Int := match p with
    | none => 1
    | some v => if v < 1 then 1 else v
  if stock.gt JSNum.zero ∧ (JSNum.ofInt q₀).gt stock then stock else JSNum.ofInt q₀

/-- Lines 185-189: the text of the stock hint. -/
def stockHintText (stock : JSNum) : String :=
  if stock.le JSNum.zero then "Sin stock en esta variante."
  else if stock.le (JSNum.ofInt 5) then
    "¡Últimas unidades! Stock disponible: " ++ numToString stock
  else "Stock disponible: " ++ numToString stock

/-- The function `refreshDetail()` (lines 170-199), the image swap left out. -/
def refreshDetail (s : DetailPage) : DetailPage :=
  match s.sel with
  | none => s
  | some sel =>
    let opt := sel.selected
    let price := detailPrice opt
    let stock := detailStock opt
    let q := detailQty stock s.qty
    let disabled : Bool := stock.le JSNum.zero
    { s with
      qty := s.qty.map (fun _ => numToString q)
      priceText := formatMoneyDetail price
      lineTotalText := formatMoneyDetail (price.mul q)
      stockHint := s.stockHint.map (fun _ => stockHintText stock)
      addBtn := s.addBtn.map (fun _ => { disabled := disabled, classDisabled := disabled }) }

end Main

/-! ## `static/js/checkout.js` -/

namespace Checkout

/-- An option of the shipping-zone select: its `value` and its `data-cost`
attribute. -/
structure ZoneOption where
  value : String
  cost : Option String

/-- The part of the checkout page the summary code touches.  `subtotalEl` is
`#subtotal-text`, kept by its `data-subtotal` attribute; `shippingEl` and
`totalEl` are kept by their text; the two radio buttons by their `checked`
flag.  `none` is an element the page lacks. -/
structure Page where
  subtotalEl : Option (Option String)
  shippingEl : Option String
  totalEl : Option String
  deliveryPickup : Option Bool
  deliveryHome : Option Bool
  zoneSelect : Option (Select ZoneOption)

/-- The helper `parsePrice(str)` (lines 10-14) on an attribute text. -/
def parsePrice (str : Option String) : JSNum :=
  match str with
  | none => JSNum.zero
  | some t =>
    if t = "" then JSNum.zero
    else
      let num := parseFloat t
      if num.isNaN then JSNum.zero else num

/-- The helper `parsePrice(n)` on a number, as `money` calls it: `!n` holds for
`0` and `NaN`; otherwise `parseFloat` reads back the text of `n`, which is `n`
again (number-to-string conversion round-trips). -/
def parsePriceNum (n : JSNum) : JSNum :=
  if ¬ n.truthy then JSNum.zero
  else if n.isNaN then JSNum.zero else n

/-- The helper `money(n)` (line 16) on a number. -/
def money (n : JSNum) : String := toFixed2 (parsePriceNum n)

/-- The constant `FIXED_SUBTOTAL` (line 49). -/
def FIXED_SUBTOTAL (p : Page) : JSNum :=
  match p.subtotalEl with
  | some attr => parsePrice attr
  | none => JSNum.zero

/-- The property `zoneSelect.value`: the value of the selected option, the
empty text without one. -/
def zoneValue (sel : Select ZoneOption) : String :=
  match sel.selected with
  | some o => o.value
  | none => ""

/-- The function `getShippingCost()` (lines 54-59). -/
def getShippingCost (p : Page) : JSNum :=
  if p.deliveryHome ≠ some true then JSNum.zero
  else
    match p.zoneSelect with
    | none => JSNum.zero
    | some sel =>
      if zoneValue sel = "" then JSNum.zero
      else parsePrice (sel.selected.bind (fun o => o.cost))

/-- The function `updateSummary()` (lines 64-69). -/
def updateSummary (p : Page) : Page :=
  let shipping := getShippingCost p
  let total := (FIXED_SUBTOTAL p).add shipping
  { p with
    shippingEl := p.shippingEl.map (fun _ => money shipping)
    totalEl := p.totalEl.map (fun _ => money total) }

end Checkout

/-! ## `static/js/checkout.js`: delivery, payment and the listeners -/

namespace JS

/-- The characters `encodeURIComponent` leaves as they are: ASCII letters and
digits and the marks `- _ . ! ~ * ' ( )`. -/
def isUriUnreserved (c : Char) : Bool :=
  let n := c.toNat
  (48 ≤ n && n ≤ 57) || (65 ≤ n && n ≤ 90) || (97 ≤ n && n ≤ 122) ||
  n == 45 || n == 95 || n == 46 || n == 33 || n == 126 || n == 42 || n == 39 ||
  n == 40 || n == 41

/-- The UTF-8 bytes of a code point. -/
def utf8Bytes (n : Nat) : List Nat :=
  if n < 0x80 then [n]
  else if n < 0x800 then [0xC0 + n / 64, 0x80 + n % 64]
  else if n < 0x10000 then [0xE0 + n / 4096, 0x80 + n / 64 % 64, 0x80 + n % 64]
  else [0xF0 + n / 262144, 0x80 + n / 4096 % 64, 0x80 + n / 64 % 64, 0x80 + n % 64]

/-- An upper-case hexadecimal digit. -/
def hexDigit (d : Nat) : Char :=
  if d < 10 then Char.ofNat (48 + d) else Char.ofNat (55 + d)

/-- The escape `%XX` of a byte. -/
def percentByte (b : Nat) : List Char := ['%', hexDigit (b / 16), hexDigit (b % 16)]

/-- The built-in `encodeURIComponent(s)`. -/
def encodeURIComponent (s : String) : String :=
  String.mk (s.data.flatMap (fun c =>
    if isUriUnreserved c then [c] else (utf8Bytes c.toNat).flatMap percentByte))

end JS

namespace Checkout

/-- The checkout page with the elements of the delivery and payment blocks.
`zoneWrapper` and `addressWrapper` are kept by their `style.display`
(`addressWrapper` is the `.col-12` ancestor of `#id_customer_address`),
`storeAddress` and the three payment panels by whether they carry the class
`d-none`, `badgeDelivery` by its text, `zoneInvalid` is the class `is-invalid`
of the zone select, `paySelect` is kept by its `value` and `btnWhatsapp` by its
`href`.  `none` is an element the page lacks. -/
structure PayPage extends Page where
  zoneWrapper : Option String
  addressWrapper : Option String
  storeAddress : Option Bool
  badgeDelivery : Option String
  zoneInvalid : Bool
  paySelect : Option String
  payTransfer : Option Bool
  payContra : Option Bool
  payEmpty : Option Bool
  btnWhatsapp : Option String

/-- The function `updateSummary()` on the whole page. -/
def PayPage.updateSummary (s : PayPage) : PayPage :=
  { s with toPage := Checkout.updateSummary s.toPage }

/-- The function `updateDeliveryUI()` (lines 74-99). -/
def updateDeliveryUI (s : PayPage) : PayPage :=
  let isPickup : Bool := s.deliveryPickup = some true
  let isDelivery : Bool := s.deliveryHome = some true
  let s₁ : PayPage :=
    { s with
      zoneWrapper := s.zoneWrapper.map (fun _ => if isDelivery then "" else "none")
      addressWrapper := s.addressWrapper.map (fun _ => if isDelivery then "" else "none")
      storeAddress := s.storeAddress.map (fun _ => !isPickup)
      badgeDelivery := s.badgeDelivery.map (fun _ => if isPickup then "Retiro" else "Envío")
      zoneInvalid := if isPickup ∧ s.zoneSelect.isSome then false else s.zoneInvalid }
  s₁.updateSummary

/-- The message of the transfer link before encoding (line 117). -/
def transferMessage (totalText : String) : String :=
  "Hola, realicé un pedido por $" ++ totalText ++
  " y adjunto el comprobante de transferencia."

/-- The address written to `btnWhatsapp.href` (lines 116-119). -/
def whatsappHref (totalText : String) : String :=
  "https://wa.me/593999519375?text=" ++ encodeURIComponent (transferMessage totalText)

/-- The function `updatePaymentUI()` (lines 104-126). -/
def updatePaymentUI (s : PayPage) : PayPage :=
  match s.paySelect with
  | none => s
  | some val =>
    let s₁ : PayPage :=
      { s with
        payTransfer := s.payTransfer.map (fun _ => true)
        payContra := s.payContra.map (fun _ => true)
        payEmpty := s.payEmpty.map (fun _ => true) }
    if val = "transferencia" then
      let totalText := match s₁.totalEl with
        | some t => t
        | none => "0.00"
      { s₁ with
        payTransfer := s₁.payTransfer.map (fun _ => false)
        btnWhatsapp := s₁.btnWhatsapp.map (fun _ => whatsappHref totalText) }
    else if val = "contraentrega" then
      { s₁ with payContra := s₁.payContra.map (fun _ => false) }
    else
      { s₁ with payEmpty := s₁.payEmpty.map (fun _ => false) }

/-- The events the listeners of lines 131-135 are registered for: one of the
two delivery radios chosen, a zone option chosen, a payment option chosen. -/
inductive Event where
  | deliveryChange (home : Bool)
  | zoneChange (index : Int)
  | paymentChange (value : String)

/-- Deliver one event: the page changes as the user acted, then the listener
registered for the event runs: `updateDeliveryUI` for the delivery radios,
`updateSummary` for the zone select, `updatePaymentUI` for the payment select.
The two radios are one group: choosing one unchecks the other.  A listener is
registered only on an element that exists. -/
def step (s : PayPage) : Event → PayPage
  | Event.deliveryChange home =>
    match (if home then s.deliveryHome else s.deliveryPickup) with
    | none => s
    | some _ =>
      updateDeliveryUI
        { s with
          deliveryPickup := s.deliveryPickup.map (fun _ => !home)
          deliveryHome := s.deliveryHome.map (fun _ => home) }
  | Event.zoneChange i =>
    match s.zoneSelect with
    | none => s
    | some sel => PayPage.updateSummary { s with zoneSelect := some { sel with selectedIndex := i } }
  | Event.paymentChange v =>
    match s.paySelect with
    | none => s
    | some _ => updatePaymentUI { s with paySelect := some v }

/-- The script at `DOMContentLoaded` (lines 140-141). -/
def init (page : PayPage) : PayPage := updatePaymentUI (updateDeliveryUI page)

/-- The page after initialisation and a sequence of events. -/
def run (page : PayPage) (events : List Event) : PayPage :=
  events.foldl step (init page)

end Checkout

/-! ## Sample pages and auxiliary definitions -/

namespace ProductDetail

/-- A product page with every element present and one variant option, given by
its `data-price` and `data-stock` attributes, and the given quantity text. -/
def samplePage (price stock qty : String) : State :=
  { variantSelect := some { options := [{ price := some price, stock := some stock }],
                            selectedIndex := 0 }
    qtyInput := { value := qty, disabled := false }
    priceText := some ""
    lineTotalText := some ""
    stockHint := some ""
    addBtn := some false
    btnPlus := some false
    btnMinus := some false
    currentStock := 0
    currentPrice := JSNum.zero }

/-- The invariant of the quantity field: its text parses to an integer `q` of
at least `1`, no greater than a positive `currentStock`, and `currentStock` is
the stock of the selected option when there is one. -/
def FieldOk (s : State) : Prop :=
  ∃ q : Int, parseInt s.qtyInput.value 0 = some q ∧ 1 ≤ q
    ∧ (0 < s.currentStock → q ≤ s.currentStock)
    ∧ ∀ (sel : Select VariantOption) (opt : VariantOption),
        s.variantSelect = some sel → sel.selected = some opt → s.currentStock = readStock opt

/-- The sample page without the stock hint element. -/
def samplePageNoHint (price stock qty : String) : State :=
  { samplePage price stock qty with stockHint := none }

end ProductDetail

namespace Main

/-- A product page for `refreshDetail` with every element present and one
variant option. -/
def sampleDetail (price stock qty : String) : DetailPage :=
  { sel := some { options := [{ price := some price, stock := some stock }], selectedIndex := 0 }
    qty := some qty
    priceText := ""
    lineTotalText := ""
    stockHint := some ""
    addBtn := some { disabled := false, classDisabled := false } }

/-- A page with the mini-cart body and a badge showing `2`. -/
def sampleCart : CartPage :=
  { miniCartBody := some "", cartBadge := some { textContent := "2", hidden := false } }

end Main

namespace Checkout

/-- A checkout page with every element present, subtotal `25.50`, and three
zone options: the empty choice, `norte` at `3.50`, `sur` at `5`. -/
def samplePage (home : Bool) (zone : Int) : Page :=
  { subtotalEl := some (some "25.50")
    shippingEl := some ""
    totalEl := some ""
    deliveryPickup := some (!home)
    deliveryHome := some home
    zoneSelect := some
      { options := [{ value := "", cost := none }, { value := "norte", cost := some "3.50" },
          { value := "sur", cost := some "5" }]
        selectedIndex := zone } }

/-- A checkout page with every element present, the given `data-subtotal`, and
one zone option `zona` with the given `data-cost`, selected. -/
def samplePageWith (subtotal cost : String) (home : Bool) : Page :=
  { subtotalEl := some (some subtotal)
    shippingEl := some ""
    totalEl := some ""
    deliveryPickup := some (!home)
    deliveryHome := some home
    zoneSelect := some { options := [{ value := "zona", cost := some cost }], selectedIndex := 0 } }

/-- The shipping cost as the summary is specified to show it: the cost of the
selected zone option when home delivery is checked and the selected zone has a
value that is not empty, and `0` otherwise. -/
def specShippingCost (p : Page) : JSNum :=
  match p.deliveryHome, p.zoneSelect.bind (fun sel => sel.selected) with
  | some true, some o => if o.value ≠ "" then parsePrice o.cost else JSNum.zero
  | _, _ => JSNum.zero

end Checkout

namespace Checkout

/-- A checkout page with every element present, built on `samplePage`, with the
given payment method selected. -/
def samplePayPage (home : Bool) (zone : Int) (pay : String) : PayPage :=
  { toPage := samplePage home zone
    zoneWrapper := some ""
    addressWrapper := some ""
    storeAddress := some false
    badgeDelivery := some ""
    zoneInvalid := false
    paySelect := some pay
    payTransfer := some true
    payContra := some true
    payEmpty := some true
    btnWhatsapp := some "" }

end Checkout

/-! ## Platform lemmas -/

namespace JS

theorem digitVal_digitChar (d : Nat) (h : d < 10) : digitVal 10 (Nat.digitChar d) = some d := by
  interval_cases d <;> rfl

theorem digitChar_not_space (d : Nat) (h : d < 10) : isWhiteSpace (Nat.digitChar d) = false := by
  interval_cases d <;> rfl

theorem takeDigits_cons_digit (d : Nat) (h : d < 10) (rest : List Char) (a k : Nat) :
    takeDigits 10 (Nat.digitChar d :: rest) a k = takeDigits 10 rest (a * 10 + d) (k + 1) := by
  simp [takeDigits, digitVal_digitChar d h]

/-- The digit list `Nat.toDigitsCore` builds in front of its accumulator: it is
not empty, starts with a nonzero digit unless the number is zero, and
`takeDigits` reads the number back from it. -/
theorem toDigitsCore_read (fuel : Nat) : ∀ (n : Nat) (acc : List Char), n < fuel →
    ∃ (d : Nat) (t : List Char), d < 10 ∧ (n ≠ 0 → d ≠ 0) ∧
      Nat.toDigitsCore 10 fuel n acc = (Nat.digitChar d :: t) ++ acc ∧
      ∀ (rest : List Char) (a k : Nat),
        takeDigits 10 ((Nat.digitChar d :: t) ++ rest) a k
          = takeDigits 10 rest (a * 10 ^ (t.length + 1) + n) (k + (t.length + 1)) := by
  induction fuel with
  | zero => intro n acc h; omega
  | succ fuel ih =>
    intro n acc h
    rw [Nat.toDigitsCore]
    by_cases h0 : n / 10 = 0
    · refine ⟨n % 10, [], Nat.mod_lt _ (by decide), by omega, by simp [h0], ?_⟩
      intro rest a k
      have hn : n % 10 = n := by omega
      simp only [List.cons_append, List.nil_append, List.length_nil]
      rw [takeDigits_cons_digit _ (Nat.mod_lt _ (by decide)), hn]
      simp
    · obtain ⟨d, t, hd, hd0, heq, hread⟩ := ih (n / 10) (Nat.digitChar (n % 10) :: acc) (by omega)
      refine ⟨d, t ++ [Nat.digitChar (n % 10)], hd, fun _ => hd0 h0, ?_, ?_⟩
      · simp [h0, heq]
      · intro rest a k
        have h1 := hread (Nat.digitChar (n % 10) :: rest) a k
        have h2 : (Nat.digitChar d :: (t ++ [Nat.digitChar (n % 10)])) ++ rest
            = (Nat.digitChar d :: t) ++ (Nat.digitChar (n % 10) :: rest) := by simp
        rw [h2, h1, takeDigits_cons_digit _ (Nat.mod_lt _ (by decide))]
        have h3 : (a * 10 ^ (t.length + 1) + n / 10) * 10 + n % 10
            = a * 10 ^ ((t ++ [Nat.digitChar (n % 10)]).length + 1) + n := by
          have e : a * 10 ^ ((t ++ [Nat.digitChar (n % 10)]).length + 1)
              = (a * 10 ^ (t.length + 1)) * 10 := by
            rw [List.length_append, List.length_singleton]; ring
          rw [e]
          generalize a * 10 ^ (t.length + 1) = x
          omega
        rw [h3]
        simp [Nat.add_assoc]

/-- Reading back a printed positive integer: `parseInt(String(n))` is `n`. -/
theorem parseInt_intToString (n : Int) (h : 1 ≤ n) : parseInt (intToString n) 0 = some n := by
  obtain ⟨m, rfl⟩ : ∃ m : Nat, n = (m : Int) := ⟨n.toNat, by omega⟩
  have hm : 1 ≤ m := by omega
  obtain ⟨d, t, hd, hd0, heq, hread⟩ := toDigitsCore_read (m + 1) m [] (by omega)
  have hd0' : d ≠ 0 := hd0 (by omega)
  have hdata : (intToString (m : Int)).data = Nat.digitChar d :: t := by
    have : ¬ ((m : Int) < 0) := by omega
    simp [intToString, this, natToString, Nat.toDigits, heq]
  have hr := hread [] 0 0
  simp only [List.append_nil, Nat.zero_mul, Nat.zero_add] at hr
  have hws : isWhiteSpace (Nat.digitChar d) = false := digitChar_not_space d hd
  have hne : Nat.digitChar d ≠ '-' ∧ Nat.digitChar d ≠ '+' ∧ Nat.digitChar d ≠ '0' := by
    interval_cases d <;> first | exact absurd rfl hd0' | decide
  obtain ⟨h1, h2, h3⟩ := hne
  have hs : stripSign (Nat.digitChar d :: t) = (false, Nat.digitChar d :: t) := by
    unfold stripSign
    split <;> simp_all
  have hx : startsWith ['0', 'x'] (Nat.digitChar d :: t) = false := by
    simp [startsWith, Ne.symm h3]
  have hX : startsWith ['0', 'X'] (Nat.digitChar d :: t) = false := by
    simp [startsWith, Ne.symm h3]
  unfold parseInt
  simp only [hdata, trimStart, List.dropWhile, hws, hs]
  simp [hx, hX, hr, takeDigits]

end JS

/-! ## Lemmas on `product-detail.js` -/

namespace ProductDetail

@[simp] theorem uqbs_qtyInput (s : State) (q : Int) :
    (updateQuantityButtonsState s q).qtyInput = s.qtyInput := by
  unfold updateQuantityButtonsState; split <;> rfl

@[simp] theorem uqbs_currentStock (s : State) (q : Int) :
    (updateQuantityButtonsState s q).currentStock = s.currentStock := by
  unfold updateQuantityButtonsState; split <;> rfl

@[simp] theorem uqbs_variantSelect (s : State) (q : Int) :
    (updateQuantityButtonsState s q).variantSelect = s.variantSelect := by
  unfold updateQuantityButtonsState; split <;> rfl

@[simp] theorem uqbs_stockHint (s : State) (q : Int) :
    (updateQuantityButtonsState s q).stockHint = s.stockHint := by
  unfold updateQuantityButtonsState; split <;> rfl

@[simp] theorem uqbs_addBtn (s : State) (q : Int) :
    (updateQuantityButtonsState s q).addBtn = s.addBtn := by
  unfold updateQuantityButtonsState; split <;> rfl

@[simp] theorem uqbs_lineTotalText (s : State) (q : Int) :
    (updateQuantityButtonsState s q).lineTotalText = s.lineTotalText := by
  unfold updateQuantityButtonsState; split <;> rfl

@[simp] theorem ush_value (s : State) : (updateStockHint s).qtyInput.value = s.qtyInput.value := by
  unfold updateStockHint; split
  · rfl
  · split_ifs <;> rfl

@[simp] theorem ush_currentStock (s : State) : (updateStockHint s).currentStock = s.currentStock := by
  unfold updateStockHint; split
  · rfl
  · split_ifs <;> rfl

@[simp] theorem ush_variantSelect (s : State) :
    (updateStockHint s).variantSelect = s.variantSelect := by
  unfold updateStockHint; split
  · rfl
  · split_ifs <;> rfl

@[simp] theorem ush_lineTotalText (s : State) :
    (updateStockHint s).lineTotalText = s.lineTotalText := by
  unfold updateStockHint; split
  · rfl
  · split_ifs <;> rfl

@[simp] theorem ush_btnPlus (s : State) : (updateStockHint s).btnPlus = s.btnPlus := by
  unfold updateStockHint; split
  · rfl
  · split_ifs <;> rfl

@[simp] theorem ush_btnMinus (s : State) : (updateStockHint s).btnMinus = s.btnMinus := by
  unfold updateStockHint; split
  · rfl
  · split_ifs <;> rfl

/-- The body of `updateUI` once the selected option is known. -/
theorem updateUI_of_selected (s : State) (sel : Select VariantOption) (opt : VariantOption)
    (hsel : s.variantSelect = some sel) (hopt : sel.selected = some opt) :
    updateUI s =
      updateQuantityButtonsState
        (updateStockHint
          { s with
            currentPrice := readPrice opt
            currentStock := readStock opt
            qtyInput := { s.qtyInput with
              value := (validateQty (readStock opt) s.qtyInput.value).2 }
            priceText := s.priceText.map (fun _ => toFixed2 (readPrice opt))
            lineTotalText := s.lineTotalText.map (fun _ =>
              toFixed2 ((readPrice opt).mul
                (JSNum.ofInt (validateQty (readStock opt) s.qtyInput.value).1))) })
        (validateQty (readStock opt) s.qtyInput.value).1 := by
  simp [updateUI, hsel, hopt]

end ProductDetail

/-! ## Claims -/

/-- C1 (stock clamp).  `product-detail.js`: when the selected variant has stock
greater than zero and the quantity field parses to an integer above it, the
quantity `updateUI` computes is the stock, the field is rewritten to the stock,
and the line total is the price times the stock.  `main.js`: the same for
`refreshDetail`, whose stock is the number `Number` reads from the attribute. -/
theorem stock_clamp
    (s : ProductDetail.State) (sel : Select ProductDetail.VariantOption)
    (opt : ProductDetail.VariantOption) (n : Int)
    (hsel : s.variantSelect = some sel) (hopt : sel.selected = some opt)
    (hstock : 0 < ProductDetail.readStock opt)
    (hparse : parseInt s.qtyInput.value 0 = some n) (hn : ProductDetail.readStock opt < n)
    (d : Main.DetailPage) (dsel : Select Main.VariantOption) (text : String) (m : Int)
    (hdsel : d.sel = some dsel) (hqty : d.qty = some text)
    (hstock' : (Main.detailStock dsel.selected).gt JSNum.zero = true)
    (hparse' : parseInt text 10 = some m)
    (hm : (JSNum.ofInt m).gt (Main.detailStock dsel.selected) = true) :
    ((ProductDetail.validateQty (ProductDetail.readStock opt) s.qtyInput.value).1
        = ProductDetail.readStock opt
      ∧ (ProductDetail.updateUI s).qtyInput.value = intToString (ProductDetail.readStock opt)
      ∧ (ProductDetail.updateUI s).lineTotalText
        = s.lineTotalText.map (fun _ => toFixed2 ((ProductDetail.readPrice opt).mul
            (JSNum.ofInt (ProductDetail.readStock opt)))))
    ∧ (Main.detailQty (Main.detailStock dsel.selected) d.qty = Main.detailStock dsel.selected
      ∧ (Main.refreshDetail d).qty = some (numToString (Main.detailStock dsel.selected))
      ∧ (Main.refreshDetail d).lineTotalText
        = Main.formatMoneyDetail ((Main.detailPrice dsel.selected).mul
            (Main.detailStock dsel.selected))) := by
  have hv : ProductDetail.validateQty (ProductDetail.readStock opt) s.qtyInput.value
      = (ProductDetail.readStock opt, intToString (ProductDetail.readStock opt)) := by
    have hn0 : n ≠ 0 := by omega
    simp [ProductDetail.validateQty, hparse, intOr, hn0, hstock, hn]
  have hq : Main.detailQty (Main.detailStock dsel.selected) d.qty
      = Main.detailStock dsel.selected := by
    have hne : text ≠ "" := by
      rintro rfl
      have h0 : parseInt "" 10 = none := by decide
      simp [h0] at hparse'
    have hm1 : ¬ m < 1 := by
      cases hst : Main.detailStock dsel.selected with
      | nan => simp [hst, JSNum.gt, JSNum.lt] at hstock'
      | inf neg =>
        simp only [hst, JSNum.gt, JSNum.lt, JSNum.ofInt, JSNum.zero] at hm hstock'
        cases neg <;> simp_all
      | dec ms es =>
        simp [hst, JSNum.gt, JSNum.lt, JSNum.ofInt, JSNum.zero] at hm hstock'
        have hp : (0 : Int) < 10 ^ es := by positivity
        intro hlt
        have : m * 10 ^ es ≤ 0 := by nlinarith
        omega
    simp [Main.detailQty, hqty, strOr, hne, hparse', hm1, hstock', hm]
  refine ⟨⟨by rw [hv], ?_, ?_⟩, hq, ?_, ?_⟩
  · rw [ProductDetail.updateUI_of_selected s sel opt hsel hopt]; simp [hv]
  · rw [ProductDetail.updateUI_of_selected s sel opt hsel hopt]; simp [hv]
  · rw [hqty] at hq
    simp [Main.refreshDetail, hdsel, hq, hqty]
  · rw [hqty] at hq
    simp [Main.refreshDetail, hdsel, hq, hqty]

/-- C1, at the spec's example: stock `3`, requested quantity `5`, price
`19.99`, on both scripts. -/
theorem stock_clamp_witness :
    ((ProductDetail.validateQty
        (ProductDetail.readStock { price := some "19.99", stock := some "3" })
        (ProductDetail.samplePage "19.99" "3" "5").qtyInput.value).1
        = ProductDetail.readStock { price := some "19.99", stock := some "3" }
      ∧ (ProductDetail.updateUI (ProductDetail.samplePage "19.99" "3" "5")).qtyInput.value
        = intToString (ProductDetail.readStock { price := some "19.99", stock := some "3" })
      ∧ (ProductDetail.updateUI (ProductDetail.samplePage "19.99" "3" "5")).lineTotalText
        = (ProductDetail.samplePage "19.99" "3" "5").lineTotalText.map
            (fun _ => toFixed2 ((ProductDetail.readPrice
              { price := some "19.99", stock := some "3" }).mul
              (JSNum.ofInt (ProductDetail.readStock
                { price := some "19.99", stock := some "3" })))))
    ∧ (Main.detailQty
          (Main.detailStock (some { price := some "19.99", stock := some "3" }))
          (Main.sampleDetail "19.99" "3" "5").qty
        = Main.detailStock (some { price := some "19.99", stock := some "3" })
      ∧ (Main.refreshDetail (Main.sampleDetail "19.99" "3" "5")).qty
        = some (numToString
            (Main.detailStock (some { price := some "19.99", stock := some "3" })))
      ∧ (Main.refreshDetail (Main.sampleDetail "19.99" "3" "5")).lineTotalText
        = Main.formatMoneyDetail
            ((Main.detailPrice (some { price := some "19.99", stock := some "3" })).mul
              (Main.detailStock (some { price := some "19.99", stock := some "3" })))) :=
  stock_clamp (ProductDetail.samplePage "19.99" "3" "5")
    { options := [{ price := some "19.99", stock := some "3" }], selectedIndex := 0 }
    { price := some "19.99", stock := some "3" } 5 rfl rfl (by decide) (by decide) (by decide)
    (Main.sampleDetail "19.99" "3" "5")
    { options := [{ price := some "19.99", stock := some "3" }], selectedIndex := 0 }
    "5" 5 rfl rfl (by decide) (by decide) (by decide)


namespace ProductDetail

/-- The stock hint and the two controls it governs after `updateUI`, as
functions of the parsed stock. -/
theorem updateUI_tier (t : State) (selt : Select VariantOption) (o : VariantOption)
    (h1 : t.variantSelect = some selt) (h2 : selt.selected = some o)
    (h3 : t.stockHint ≠ none) :
    (updateUI t).stockHint
        = some (if readStock o ≤ 0 then outOfStockHtml
            else if readStock o < 5 then lowStockHtml (readStock o)
            else availableHtml (readStock o))
    ∧ (updateUI t).addBtn = t.addBtn.map (fun _ => decide (readStock o ≤ 0))
    ∧ (updateUI t).qtyInput.disabled = decide (readStock o ≤ 0) := by
  obtain ⟨h, hh⟩ : ∃ h, t.stockHint = some h := Option.ne_none_iff_exists'.mp h3
  rw [updateUI_of_selected t selt o h1 h2]
  simp only [uqbs_stockHint, uqbs_addBtn, uqbs_qtyInput]
  unfold updateStockHint
  simp only [hh]
  split_ifs with c1 c2 <;> simp [c1]

end ProductDetail

/-- C2 (counterexample): a page without the stock hint element, the selected
variant with stock `0`.  The whole of lines 66-80 is under `if (stockHint)`:
`updateUI` shows no message and leaves the add button and the quantity field
enabled. -/
theorem stock_zero_without_hint :
    (ProductDetail.samplePageNoHint "10.00" "0" "1").stockHint = none
    ∧ ProductDetail.readStock { price := some "10.00", stock := some "0" } = 0
    ∧ (ProductDetail.updateUI (ProductDetail.samplePageNoHint "10.00" "0" "1")).stockHint
        = none
    ∧ (ProductDetail.updateUI (ProductDetail.samplePageNoHint "10.00" "0" "1")).addBtn
        = some false
    ∧ (ProductDetail.updateUI
        (ProductDetail.samplePageNoHint "10.00" "0" "1")).qtyInput.disabled = false := by
  decide

/-- C2 (amended: stock tier of `updateUI` with the stock hint on the page).
The hint and the `disabled` flags of the add button and the quantity field are
fixed by the parsed stock alone: at or below `0` the `Agotado` markup and both
controls disabled; from `1` to `4` the `¡Solo quedan N unidades!` markup with
the stock number and both controls enabled; from `5` on the
`Disponible (N en stock)` markup and both controls enabled.  Two pages whose
selected variants parse to the same stock get the same three results, whatever
their prices and quantities. -/
theorem stock_tier_of_stock
    (s : ProductDetail.State) (sel : Select ProductDetail.VariantOption)
    (opt : ProductDetail.VariantOption)
    (hsel : s.variantSelect = some sel) (hopt : sel.selected = some opt)
    (hint : s.stockHint ≠ none) :
    (ProductDetail.readStock opt ≤ 0 →
      (ProductDetail.updateUI s).stockHint
          = some ("<i class=\"bi bi-x-circle-fill text-danger\"></i> " ++
              "<span class=\"text-danger fw-medium\">Agotado</span>")
      ∧ (ProductDetail.updateUI s).addBtn = s.addBtn.map (fun _ => true)
      ∧ (ProductDetail.updateUI s).qtyInput.disabled = true)
    ∧ (1 ≤ ProductDetail.readStock opt ∧ ProductDetail.readStock opt ≤ 4 →
      (ProductDetail.updateUI s).stockHint
          = some ("<i class=\"bi bi-exclamation-triangle-fill text-warning\"></i> " ++
              "<span class=\"text-warning fw-medium\">¡Solo quedan " ++
              intToString (ProductDetail.readStock opt) ++ " unidades!</span>")
      ∧ (ProductDetail.updateUI s).addBtn = s.addBtn.map (fun _ => false)
      ∧ (ProductDetail.updateUI s).qtyInput.disabled = false)
    ∧ (5 ≤ ProductDetail.readStock opt →
      (ProductDetail.updateUI s).stockHint
          = some ("<i class=\"bi bi-check-circle-fill text-success\"></i> " ++
              "<span class=\"text-success fw-medium\">Disponible (" ++
              intToString (ProductDetail.readStock opt) ++ " en stock)</span>")
      ∧ (ProductDetail.updateUI s).addBtn = s.addBtn.map (fun _ => false)
      ∧ (ProductDetail.updateUI s).qtyInput.disabled = false)
    ∧ (∀ (s₂ : ProductDetail.State) (sel₂ : Select ProductDetail.VariantOption)
        (opt₂ : ProductDetail.VariantOption),
        s₂.variantSelect = some sel₂ → sel₂.selected = some opt₂ → s₂.stockHint ≠ none →
        ProductDetail.readStock opt₂ = ProductDetail.readStock opt →
        (ProductDetail.updateUI s₂).stockHint = (ProductDetail.updateUI s).stockHint
        ∧ (ProductDetail.updateUI s₂).qtyInput.disabled
            = (ProductDetail.updateUI s).qtyInput.disabled
        ∧ ∀ b b₂ : Bool, (ProductDetail.updateUI s).addBtn = some b →
            (ProductDetail.updateUI s₂).addBtn = some b₂ → b₂ = b) := by
  have key := ProductDetail.updateUI_tier
  obtain ⟨k1, k2, k3⟩ := key s sel opt hsel hopt hint
  refine ⟨?_, ?_, ?_, ?_⟩
  · intro h
    refine ⟨?_, by simp [k2, h], by simp [k3, h]⟩
    rw [k1, if_pos h]
    rfl
  · rintro ⟨h1, h2⟩
    have c1 : ¬ ProductDetail.readStock opt ≤ 0 := by omega
    have c2 : ProductDetail.readStock opt < 5 := by omega
    refine ⟨?_, by simp [k2, c1], by simp [k3, c1]⟩
    rw [k1, if_neg c1, if_pos c2]
    rfl
  · intro h
    have c1 : ¬ ProductDetail.readStock opt ≤ 0 := by omega
    have c2 : ¬ ProductDetail.readStock opt < 5 := by omega
    refine ⟨?_, by simp [k2, c1], by simp [k3, c1]⟩
    rw [k1, if_neg c1, if_neg c2]
    rfl
  · intro s₂ sel₂ opt₂ g1 g2 g3 g4
    obtain ⟨j1, j2, j3⟩ := key s₂ sel₂ opt₂ g1 g2 g3
    refine ⟨by rw [j1, k1, g4], by rw [j3, k3, g4], ?_⟩
    intro b b₂ hb hb₂
    rw [k2] at hb
    rw [j2, g4] at hb₂
    cases hs : s.addBtn <;> cases hs₂ : s₂.addBtn <;> simp_all

/-- C2 (amended), on three pages with the hint: stock `0` gives the `Agotado`
markup and both controls disabled; stock `3` the low-stock markup with the
number `3` and both controls enabled; stock `12` the available markup with the
number `12` and both controls enabled. -/
theorem stock_tier_of_stock_witness :
    (ProductDetail.samplePage "19.99" "3" "5").stockHint ≠ none
    ∧ ((ProductDetail.updateUI (ProductDetail.samplePage "19.99" "0" "5")).stockHint
        = some ("<i class=\"bi bi-x-circle-fill text-danger\"></i> " ++
            "<span class=\"text-danger fw-medium\">Agotado</span>")
      ∧ (ProductDetail.updateUI (ProductDetail.samplePage "19.99" "0" "5")).addBtn = some true
      ∧ (ProductDetail.updateUI (ProductDetail.samplePage "19.99" "0" "5")).qtyInput.disabled
        = true)
    ∧ ((ProductDetail.updateUI (ProductDetail.samplePage "19.99" "3" "5")).stockHint
        = some ("<i class=\"bi bi-exclamation-triangle-fill text-warning\"></i> " ++
            "<span class=\"text-warning fw-medium\">¡Solo quedan 3 unidades!</span>")
      ∧ (ProductDetail.updateUI (ProductDetail.samplePage "19.99" "3" "5")).addBtn = some false
      ∧ (ProductDetail.updateUI (ProductDetail.samplePage "19.99" "3" "5")).qtyInput.disabled
        = false)
    ∧ ((ProductDetail.updateUI (ProductDetail.samplePage "19.99" "12" "5")).stockHint
        = some ("<i class=\"bi bi-check-circle-fill text-success\"></i> " ++
            "<span class=\"text-success fw-medium\">Disponible (12 en stock)</span>")
      ∧ (ProductDetail.updateUI (ProductDetail.samplePage "19.99" "12" "5")).addBtn
        = some false
      ∧ (ProductDetail.updateUI (ProductDetail.samplePage "19.99" "12" "5")).qtyInput.disabled
        = false) :=
  have h0 := (stock_tier_of_stock (ProductDetail.samplePage "19.99" "0" "5")
    { options := [{ price := some "19.99", stock := some "0" }], selectedIndex := 0 }
    { price := some "19.99", stock := some "0" } rfl rfl (by decide)).1 (by decide)
  have h3 := (stock_tier_of_stock (ProductDetail.samplePage "19.99" "3" "5")
    { options := [{ price := some "19.99", stock := some "3" }], selectedIndex := 0 }
    { price := some "19.99", stock := some "3" } rfl rfl (by decide)).2.1
    ⟨by decide, by decide⟩
  have h12 := (stock_tier_of_stock (ProductDetail.samplePage "19.99" "12" "5")
    { options := [{ price := some "19.99", stock := some "12" }], selectedIndex := 0 }
    { price := some "19.99", stock := some "12" } rfl rfl (by decide)).2.2.1 (by decide)
  ⟨by decide, h0, ⟨h3.1.trans (by decide), h3.2⟩, ⟨h12.1.trans (by decide), h12.2⟩⟩

/-- C3 (code bug), the failing input: the quantity text `-5` on a variant with
stock `3` and price `10.00`.  `parseInt` gives `-5`, which `|| 1` keeps, so
`updateUI` works with the quantity `-5`: the line total is `-50.00`, and `-5`
is what `updateQuantityButtonsState` receives.  The `input` listener of the
same script and `refreshDetail` of `main.js` turn the same text into `1`. -/
theorem updateUI_keeps_negative_quantity :
    parseInt "-5" 0 = some (-5)
    ∧ (ProductDetail.validateQty 3 "-5").1 = -5
    ∧ ProductDetail.updateUI (ProductDetail.samplePage "10.00" "3" "-5")
        = ProductDetail.updateQuantityButtonsState
            (ProductDetail.updateStockHint
              { ProductDetail.samplePage "10.00" "3" "-5" with
                currentPrice := JSNum.dec 10 0
                currentStock := 3
                priceText := some "10.00"
                lineTotalText := some "-50.00" })
            (-5)
    ∧ (ProductDetail.updateUI (ProductDetail.samplePage "10.00" "3" "-5")).lineTotalText
        = some "-50.00"
    ∧ (ProductDetail.updateUI (ProductDetail.samplePage "10.00" "3" "-5")).qtyInput.value = "-5"
    ∧ (ProductDetail.onQtyInput
        (ProductDetail.init (ProductDetail.samplePage "10.00" "3" "-5"))).qtyInput.value = "1"
    ∧ (Main.refreshDetail (Main.sampleDetail "10.00" "3" "-5")).qty = some "1" := by
  refine ⟨by decide, by decide, ?_, by decide, by decide, by decide, by decide⟩
  rw [ProductDetail.updateUI_of_selected _
    { options := [{ price := some "10.00", stock := some "3" }], selectedIndex := 0 }
    { price := some "10.00", stock := some "3" } rfl rfl]
  have h1 : ProductDetail.readStock { price := some "10.00", stock := some "3" } = 3 := by
    decide
  have h2 : ProductDetail.readPrice { price := some "10.00", stock := some "3" }
      = JSNum.dec 10 0 := by decide
  have h3 : ProductDetail.validateQty 3 "-5" = (-5, "-5") := by decide
  have h4 : toFixed2 (JSNum.dec 10 0) = "10.00" := by decide
  have h5 : toFixed2 ((JSNum.dec 10 0).mul (JSNum.ofInt (-5))) = "-50.00" := by decide
  simp [ProductDetail.samplePage, h1, h2, h3, h4, h5]

/-- C4 (code bug), the failing input: the quantity text `-5` on a variant with
stock `3`, both buttons on the page.  After `updateUI` the decrement button is
disabled although the effective quantity is `-5`, not `1`. -/
theorem minus_disabled_at_negative_quantity :
    (ProductDetail.updateUI (ProductDetail.samplePage "10.00" "3" "-5")).btnMinus = some true
    ∧ (ProductDetail.updateUI (ProductDetail.samplePage "10.00" "3" "-5")).btnPlus = some false
    ∧ ProductDetail.effectiveQty
        (ProductDetail.updateUI (ProductDetail.samplePage "10.00" "3" "-5")) = -5
    ∧ ¬ ((ProductDetail.updateUI (ProductDetail.samplePage "10.00" "3" "-5")).btnMinus = some true
        ↔ ProductDetail.effectiveQty
            (ProductDetail.updateUI (ProductDetail.samplePage "10.00" "3" "-5")) = 1) := by
  decide

namespace ProductDetail

/-- The quantity of lines 54-58 by the parsed field text: `1` for a text that
is not numeric or parses to `0`, and the parsed number itself, unchanged, for
a negative one. -/
theorem validateQty_by_parse (currentStock : Int) (value : String) :
    (parseInt value 0 = none ∨ parseInt value 0 = some 0 →
      (validateQty currentStock value).1 = 1)
    ∧ (∀ n : Int, n < 0 → parseInt value 0 = some n →
      (validateQty currentStock value).1 = n) := by
  constructor
  · intro h
    have h1 : intOr (parseInt value 0) 1 = 1 := by
      rcases h with h | h <;> simp [intOr, h]
    unfold validateQty
    rw [h1]
    simp only
    split_ifs with c
    · simp only; omega
    · rfl
  · intro n hn hp
    have h1 : intOr (parseInt value 0) 1 = n := by
      have : n ≠ 0 := by omega
      simp [intOr, hp, this]
    unfold validateQty
    rw [h1]
    simp only
    split_ifs with c
    · simp only; omega
    · rfl

/-- What holds of the two buttons whenever the quantity `updateUI` computes is
at least `1` (the field text is not a negative integer): the decrement button
is disabled exactly at quantity `1`, the increment button exactly when the
stock is positive and the quantity equals it. -/
theorem buttons_iff_of_one_le (s : State) (sel : Select VariantOption) (opt : VariantOption)
    (bp bm : Bool)
    (hsel : s.variantSelect = some sel) (hopt : sel.selected = some opt)
    (hp : s.btnPlus = some bp) (hm : s.btnMinus = some bm)
    (hq : 1 ≤ (validateQty (readStock opt) s.qtyInput.value).1) :
    ((updateUI s).btnMinus = some true
        ↔ (validateQty (readStock opt) s.qtyInput.value).1 = 1)
    ∧ ((updateUI s).btnPlus = some true
        ↔ 0 < readStock opt ∧ (validateQty (readStock opt) s.qtyInput.value).1 = readStock opt) := by
  rw [updateUI_of_selected s sel opt hsel hopt]
  have hle : 0 < readStock opt →
      (validateQty (readStock opt) s.qtyInput.value).1 ≤ readStock opt := by
    intro h0
    unfold validateQty
    simp only
    split_ifs with c
    · exact le_refl _
    · simp only [gt_iff_lt, not_and, not_lt] at c
      exact c h0
  unfold updateQuantityButtonsState
  simp only [ush_btnMinus, ush_btnPlus, hp, hm, ush_currentStock]
  constructor
  · simp only [Option.some.injEq, decide_eq_true_eq]
    omega
  · simp only [Option.some.injEq, decide_eq_true_eq, gt_iff_lt, ge_iff_le]
    constructor
    · rintro ⟨h1, h2⟩
      exact ⟨h1, le_antisymm (hle h1) h2⟩
    · rintro ⟨h1, h2⟩
      exact ⟨h1, by omega⟩

end ProductDetail

namespace ProductDetail

@[simp] theorem updateUI_variantSelect (s : State) :
    (updateUI s).variantSelect = s.variantSelect := by
  unfold updateUI
  split
  · rfl
  · split
    · rfl
    · simp

theorem updateUI_currentStock (s : State) (sel : Select VariantOption) (opt : VariantOption)
    (hsel : s.variantSelect = some sel) (hopt : sel.selected = some opt) :
    (updateUI s).currentStock = readStock opt := by
  rw [updateUI_of_selected s sel opt hsel hopt]; simp

theorem updateUI_value (s : State) (sel : Select VariantOption) (opt : VariantOption)
    (hsel : s.variantSelect = some sel) (hopt : sel.selected = some opt) :
    (updateUI s).qtyInput.value = (validateQty (readStock opt) s.qtyInput.value).2 := by
  rw [updateUI_of_selected s sel opt hsel hopt]; simp

theorem validateQty_zero (value : String) :
    validateQty 0 value = (intOr (parseInt value 0) 1, value) := by
  simp [validateQty]

end ProductDetail

/-- C5 (counterexample): a variant with stock `0` and quantity text `1`, every
element on the page.  After `updateUI` the add button and the quantity field
are disabled, but the increment button is not, and a click on it changes the
quantity from `1` to `2`.  With quantity text `3` the decrement button is not
disabled either, and a click on it changes the quantity from `3` to `2`. -/
theorem plus_enabled_at_zero_stock :
    ProductDetail.readStock { price := some "10.00", stock := some "0" } = 0
    ∧ (ProductDetail.updateUI (ProductDetail.samplePage "10.00" "0" "1")).addBtn = some true
    ∧ (ProductDetail.updateUI (ProductDetail.samplePage "10.00" "0" "1")).qtyInput.disabled
        = true
    ∧ (ProductDetail.updateUI (ProductDetail.samplePage "10.00" "0" "1")).btnPlus = some false
    ∧ (ProductDetail.updateUI (ProductDetail.samplePage "10.00" "0" "1")).qtyInput.value = "1"
    ∧ (ProductDetail.step (ProductDetail.updateUI (ProductDetail.samplePage "10.00" "0" "1"))
        ProductDetail.Event.plusClick).qtyInput.value = "2"
    ∧ (ProductDetail.updateUI (ProductDetail.samplePage "10.00" "0" "3")).btnMinus = some false
    ∧ (ProductDetail.step (ProductDetail.updateUI (ProductDetail.samplePage "10.00" "0" "3"))
        ProductDetail.Event.minusClick).qtyInput.value = "2" := by
  decide

/-- C5 (amended).  For a variant whose stock parses to `0`, with the stock hint
and both step buttons on the page: after `updateUI` the add button and the
quantity field are disabled and the increment button is enabled; the decrement
button is disabled at effective quantity `1` and enabled above `1`; and from an
effective quantity of at least `1` and below `2 ^ 53` (where adding one is
exact in the code's doubles) a click on the increment button raises the
quantity in the field by one. -/
theorem out_of_stock_controls
    (s : ProductDetail.State) (sel : Select ProductDetail.VariantOption)
    (opt : ProductDetail.VariantOption) (bp bm : Bool)
    (hsel : s.variantSelect = some sel) (hopt : sel.selected = some opt)
    (hstock : ProductDetail.readStock opt = 0) (hint : s.stockHint ≠ none)
    (hp : s.btnPlus = some bp) (hm : s.btnMinus = some bm) :
    (ProductDetail.updateUI s).addBtn = s.addBtn.map (fun _ => true)
    ∧ (ProductDetail.updateUI s).qtyInput.disabled = true
    ∧ (ProductDetail.updateUI s).btnPlus = some false
    ∧ ((ProductDetail.validateQty (ProductDetail.readStock opt) s.qtyInput.value).1 = 1 →
        (ProductDetail.updateUI s).btnMinus = some true)
    ∧ (1 < (ProductDetail.validateQty (ProductDetail.readStock opt) s.qtyInput.value).1 →
        (ProductDetail.updateUI s).btnMinus = some false)
    ∧ (1 ≤ (ProductDetail.validateQty (ProductDetail.readStock opt) s.qtyInput.value).1
        ∧ (ProductDetail.validateQty (ProductDetail.readStock opt) s.qtyInput.value).1
          < 2 ^ 53 →
        (ProductDetail.step (ProductDetail.updateUI s)
            ProductDetail.Event.plusClick).qtyInput.value
          = intToString
              ((ProductDetail.validateQty (ProductDetail.readStock opt) s.qtyInput.value).1
                + 1)) := by
  obtain ⟨-, k2, k3⟩ := ProductDetail.updateUI_tier s sel opt hsel hopt hint
  have hv := ProductDetail.validateQty_zero s.qtyInput.value
  have hbtn : (ProductDetail.updateUI s).btnPlus = some false
      ∧ (ProductDetail.updateUI s).btnMinus
        = some (decide (intOr (parseInt s.qtyInput.value 0) 1 ≤ 1)) := by
    rw [ProductDetail.updateUI_of_selected s sel opt hsel hopt]
    unfold ProductDetail.updateQuantityButtonsState
    simp [hp, hm, hstock, hv]
  rw [hstock, hv]
  refine ⟨by simp [k2, hstock], by simp [k3, hstock], hbtn.1, ?_, ?_, ?_⟩
  · intro h; simp only at h; simp [hbtn.2, h]
  · intro h; simp only [hbtn.2, Option.some.injEq, decide_eq_false_iff_not]; simp at h; omega
  · intro _
    have hcs := ProductDetail.updateUI_currentStock s sel opt hsel hopt
    have hval := ProductDetail.updateUI_value s sel opt hsel hopt
    rw [hstock, hv] at hval
    rw [hstock] at hcs
    simp only at hval
    simp only [ProductDetail.step, hbtn.1, ProductDetail.onPlusClick, hcs, hval, true_or,
      if_true]
    rw [ProductDetail.updateUI_value _ sel opt (by simp [hsel]) hopt, hstock,
      ProductDetail.validateQty_zero]

/-- C5 (amended), on a page with stock `0` and quantity text `2`: the
hypotheses hold there, the add button and the field end disabled, the increment
button enabled, and a click on it writes `3`. -/
theorem out_of_stock_controls_witness :
    ProductDetail.readStock { price := some "10.00", stock := some "0" } = 0
    ∧ (ProductDetail.updateUI (ProductDetail.samplePage "10.00" "0" "2")).addBtn = some true
    ∧ (ProductDetail.updateUI (ProductDetail.samplePage "10.00" "0" "2")).qtyInput.disabled
        = true
    ∧ (ProductDetail.updateUI (ProductDetail.samplePage "10.00" "0" "2")).btnPlus = some false
    ∧ (ProductDetail.step (ProductDetail.updateUI (ProductDetail.samplePage "10.00" "0" "2"))
        ProductDetail.Event.plusClick).qtyInput.value = "3" :=
  have h := out_of_stock_controls (ProductDetail.samplePage "10.00" "0" "2")
    { options := [{ price := some "10.00", stock := some "0" }], selectedIndex := 0 }
    { price := some "10.00", stock := some "0" } false false rfl rfl (by decide) (by decide)
    rfl rfl
  ⟨by decide, h.1, h.2.1, h.2.2.1, h.2.2.2.2.2 ⟨by decide, by decide⟩⟩

namespace ProductDetail

theorem parseInt_empty : parseInt "" 0 = none := by decide

/-- Once the field parses to `q`, the expression `parseInt(..) || 1` is `q`
whenever `q` is not `0`. -/
theorem intOr_of_parse (value : String) (q : Int) (hq : parseInt value 0 = some q)
    (h1 : 1 ≤ q) : intOr (parseInt value 0) 1 = q := by
  have : q ≠ 0 := by omega
  simp [intOr, hq, this]

/-- The value the `input` listener settles on is at least `1` and within a
positive `currentStock`. -/
theorem inputVal_bounds (currentStock : Int) (p : Option Int) :
    1 ≤ inputVal currentStock p ∧ (0 < currentStock → inputVal currentStock p ≤ currentStock) := by
  unfold inputVal
  simp only
  have h₀ : (1 : Int) ≤ (match p with
      | none => 1
      | some v => if v < 1 then 1 else v) := by
    split
    · exact le_refl _
    · split_ifs <;> omega
  generalize (match p with
      | none => (1 : Int)
      | some v => if v < 1 then 1 else v) = val₀ at h₀
  split_ifs with c
  · exact ⟨by omega, fun _ => le_refl _⟩
  · refine ⟨h₀, fun h => ?_⟩
    simp only [gt_iff_lt, not_and, not_lt] at c
    exact c h

/-- The function `updateUI` establishes the field invariant from a field that
parses to an integer of at least `1` within a positive `currentStock`. -/
theorem updateUI_fieldOk (s : State) (q : Int) (hq : parseInt s.qtyInput.value 0 = some q)
    (h1 : 1 ≤ q) (hb : 0 < s.currentStock → q ≤ s.currentStock) : FieldOk (updateUI s) := by
  cases hsel : s.variantSelect with
  | none =>
    have : updateUI s = s := by simp [updateUI, hsel]
    rw [this]
    exact ⟨q, hq, h1, hb, by simp [hsel]⟩
  | some sel =>
    cases hopt : sel.selected with
    | none =>
      have : updateUI s = s := by simp [updateUI, hsel, hopt]
      rw [this]
      refine ⟨q, hq, h1, hb, ?_⟩
      intro sel' opt' e1 e2
      rw [hsel] at e1
      cases e1
      rw [hopt] at e2
      cases e2
    | some opt =>
      have hcs := updateUI_currentStock s sel opt hsel hopt
      have hval := updateUI_value s sel opt hsel hopt
      have hsync : ∀ (sel' : Select VariantOption) (opt' : VariantOption),
          (updateUI s).variantSelect = some sel' → sel'.selected = some opt' →
          (updateUI s).currentStock = readStock opt' := by
        intro sel' opt' e1 e2
        rw [updateUI_variantSelect, hsel] at e1
        cases e1
        rw [hopt] at e2
        cases e2
        exact hcs
      have hio := intOr_of_parse s.qtyInput.value q hq h1
      by_cases c : readStock opt > 0 ∧ q > readStock opt
      · have hv : validateQty (readStock opt) s.qtyInput.value
            = (readStock opt, intToString (readStock opt)) := by
          simp [validateQty, hio, c.1, c.2]
        refine ⟨readStock opt, ?_, by omega, by rw [hcs]; intro _; exact le_refl _, hsync⟩
        rw [hval, hv]
        exact parseInt_intToString _ (by omega)
      · have hv : validateQty (readStock opt) s.qtyInput.value = (q, s.qtyInput.value) := by
          unfold validateQty
          rw [hio]
          simp only [c, if_false]
        refine ⟨q, by rw [hval, hv]; exact hq, h1, ?_, hsync⟩
        rw [hcs]
        intro h0
        simp only [gt_iff_lt, not_and, not_lt] at c
        exact c h0

/-- Every listener keeps the field invariant. -/
theorem step_fieldOk (s : State) (e : Event) (h : FieldOk s) : FieldOk (step s e) := by
  obtain ⟨q, hq, h1, hb, hsync⟩ := h
  cases e with
  | variantChange i =>
    simp only [step]
    cases hsel : s.variantSelect with
    | none => exact ⟨q, hq, h1, hb, by simp [hsel]⟩
    | some sel => exact updateUI_fieldOk _ q hq h1 hb
  | qtyInput text =>
    simp only [step, onQtyInput]
    obtain ⟨v1, vb⟩ := inputVal_bounds s.currentStock (parseInt text 0)
    split_ifs with hne
    · have hp' : parseInt (intToString (inputVal s.currentStock (parseInt text 0))) 0
          = some (inputVal s.currentStock (parseInt text 0)) := parseInt_intToString _ v1
      exact updateUI_fieldOk _ _ hp' v1 vb
    · simp only [ne_eq, not_not] at hne
      exact updateUI_fieldOk _ _ hne v1 vb
  | qtyBlur =>
    simp only [step, onQtyBlur]
    split_ifs with he
    · rw [he, parseInt_empty] at hq
      cases hq
    · exact updateUI_fieldOk _ q hq h1 hb
  | plusClick =>
    simp only [step]
    cases hp : s.btnPlus with
    | none => exact ⟨q, hq, h1, hb, hsync⟩
    | some b =>
      simp only [onPlusClick, intOr_of_parse _ q hq h1]
      split_ifs with c
      · have hp' : parseInt (intToString (q + 1)) 0 = some (q + 1) :=
          parseInt_intToString (q + 1) (by omega)
        refine updateUI_fieldOk _ (q + 1) hp' (by omega) ?_
        intro h0
        have h0' : 0 < s.currentStock := h0
        show q + 1 ≤ s.currentStock
        omega
      · exact ⟨q, hq, h1, hb, hsync⟩
  | minusClick =>
    simp only [step]
    cases hp : s.btnMinus with
    | none => exact ⟨q, hq, h1, hb, hsync⟩
    | some b =>
      simp only [onMinusClick, intOr_of_parse _ q hq h1]
      split_ifs with c
      · have hp' : parseInt (intToString (q - 1)) 0 = some (q - 1) :=
          parseInt_intToString (q - 1) (by omega)
        refine updateUI_fieldOk _ (q - 1) hp' (by omega) ?_
        intro h0
        have := hb h0
        show q - 1 ≤ s.currentStock
        omega
      · exact ⟨q, hq, h1, hb, hsync⟩

/-- The field invariant holds after initialisation and any sequence of events. -/
theorem run_fieldOk (page : State) (n : Int) (h0 : parseInt page.qtyInput.value 0 = some n)
    (h1 : 1 ≤ n) (events : List Event) : FieldOk (run page events) := by
  have hinit : FieldOk (init page) := by
    unfold init
    refine updateUI_fieldOk _ n h0 h1 ?_
    intro h
    exact absurd h (lt_irrefl (0 : Int))
  unfold run
  generalize init page = s at hinit
  induction events generalizing s with
  | nil => exact hinit
  | cons e es ih => exact ih (step s e) (step_fieldOk s e hinit)

end ProductDetail

/-- C6 (quantity invariant).  Starting from a quantity field that holds an
integer of at least `1`, after initialisation and every finite sequence of
events (variant change, quantity input with any text, blur, increment click,
decrement click) the effective quantity is at least `1`, it is what the field
parses to, and it does not exceed the stock of the selected variant when that
stock is positive. -/
theorem quantity_invariant (page : ProductDetail.State) (n : Int)
    (h0 : parseInt page.qtyInput.value 0 = some n) (h1 : 1 ≤ n)
    (events : List ProductDetail.Event) :
    1 ≤ ProductDetail.effectiveQty (ProductDetail.run page events)
    ∧ parseInt (ProductDetail.run page events).qtyInput.value 0
        = some (ProductDetail.effectiveQty (ProductDetail.run page events))
    ∧ ∀ (sel : Select ProductDetail.VariantOption) (opt : ProductDetail.VariantOption),
        (ProductDetail.run page events).variantSelect = some sel → sel.selected = some opt →
        0 < ProductDetail.readStock opt →
        ProductDetail.effectiveQty (ProductDetail.run page events)
          ≤ ProductDetail.readStock opt := by
  obtain ⟨q, hq, hq1, hb, hsync⟩ := ProductDetail.run_fieldOk page n h0 h1 events
  have he : ProductDetail.effectiveQty (ProductDetail.run page events) = q := by
    unfold ProductDetail.effectiveQty ProductDetail.validateQty
    rw [ProductDetail.intOr_of_parse _ q hq hq1]
    have : ¬ ((ProductDetail.run page events).currentStock > 0
        ∧ q > (ProductDetail.run page events).currentStock) := by
      rintro ⟨c1, c2⟩
      have := hb c1
      omega
    simp only [this, if_false]
  rw [he]
  refine ⟨hq1, hq, ?_⟩
  intro sel opt e1 e2 e3
  rw [← hsync sel opt e1 e2] at e3 ⊢
  exact hb e3

/-- C6, on a run: stock `3`, the field starting at `1`, then the text `7` typed,
an increment click, the variant chosen again, the text `-2` typed, a decrement
click. -/
theorem quantity_invariant_witness :
    parseInt (ProductDetail.samplePage "19.99" "3" "1").qtyInput.value 0 = some 1
    ∧ 1 ≤ ProductDetail.effectiveQty
        (ProductDetail.run (ProductDetail.samplePage "19.99" "3" "1")
          [ProductDetail.Event.qtyInput "7", ProductDetail.Event.plusClick,
            ProductDetail.Event.variantChange 0, ProductDetail.Event.qtyInput "-2",
            ProductDetail.Event.minusClick])
    ∧ parseInt
        (ProductDetail.run (ProductDetail.samplePage "19.99" "3" "1")
          [ProductDetail.Event.qtyInput "7", ProductDetail.Event.plusClick,
            ProductDetail.Event.variantChange 0, ProductDetail.Event.qtyInput "-2",
            ProductDetail.Event.minusClick]).qtyInput.value 0
        = some (ProductDetail.effectiveQty
            (ProductDetail.run (ProductDetail.samplePage "19.99" "3" "1")
              [ProductDetail.Event.qtyInput "7", ProductDetail.Event.plusClick,
                ProductDetail.Event.variantChange 0, ProductDetail.Event.qtyInput "-2",
                ProductDetail.Event.minusClick])) :=
  have h := quantity_invariant (ProductDetail.samplePage "19.99" "3" "1") 1 (by decide)
    (by decide)
    [ProductDetail.Event.qtyInput "7", ProductDetail.Event.plusClick,
      ProductDetail.Event.variantChange 0, ProductDetail.Event.qtyInput "-2",
      ProductDetail.Event.minusClick]
  ⟨by decide, h.1, h.2.1⟩

/-! ### `main.js`: mini cart -/

/-- C7 (counterexample): a JSON body of the wrong shape, `{"ok": true}` with
neither `cart_count` nor `mini_cart_html`, under status `200`, on a page whose
badge shows `2`.  `refreshMiniCart` takes it for a success: the badge is
overwritten with `0` and hidden, and the body shows the empty-cart text, not
an error placeholder. -/
theorem wrong_shape_body_overwrites_badge :
    Main.sampleCart.cartBadge = some { textContent := "2", hidden := false }
    ∧ Main.refreshMiniCart (some "/cart/summary/")
        (Main.FetchOutcome.response 200
          (Main.Body.value
            { ok := Main.JsVal.bool true, cart_count := Main.JsVal.undefined,
              mini_cart_html := Main.JsVal.undefined }))
        Main.sampleCart
      = Except.ok
          { miniCartBody := some "<div class='text-muted small p-3'>Carrito vacío</div>",
            cartBadge := some { textContent := "0", hidden := true } } := by
  exact ⟨rfl, rfl⟩

/-- C7 (amended: cart-summary failures).  With `CART_SUMMARY_URL` defined and
the mini-cart body on the page, `refreshMiniCart` returns normally, leaves the
badge as it was and ends with an error placeholder in the body: for a status
outside 200-299 the text `Error cargando carrito (s)` with the status `s`; for
a body whose `ok` is falsy the text `No se pudo cargar el carrito`; for a body
that is not JSON or is `null` the text
`Error: respuesta inválida del servidor`. -/
theorem refresh_failure_absorbed (url : String) (hurl : url ≠ "") (s : Main.CartPage)
    (html : String) (hbody : s.miniCartBody = some html) :
    (∀ (status : Nat) (body : Main.Body), Main.statusOk status = false →
      Main.refreshMiniCart (some url) (Main.FetchOutcome.response status body) s
        = Except.ok
            { miniCartBody := some
                ("\n          <div class=\"text-danger small p-3\">\n" ++
                  "            Error cargando carrito (" ++ natToString status ++
                  ")\n          </div>"),
              cartBadge := s.cartBadge })
    ∧ (∀ (status : Nat) (data : Main.CartSummary), Main.statusOk status = true →
      data.ok.truthy = false →
      Main.refreshMiniCart (some url)
          (Main.FetchOutcome.response status (Main.Body.value data)) s
        = Except.ok
            { miniCartBody := some
                ("\n          <div class=\"text-danger small p-3\">\n" ++
                  "            No se pudo cargar el carrito\n          </div>"),
              cartBadge := s.cartBadge })
    ∧ (∀ (status : Nat), Main.statusOk status = true →
      Main.refreshMiniCart (some url)
          (Main.FetchOutcome.response status Main.Body.malformed) s
        = Except.ok
            { miniCartBody := some
                ("\n        <div class=\"text-danger small p-3\">\n" ++
                  "          Error: respuesta inválida del servidor\n        </div>"),
              cartBadge := s.cartBadge }
      ∧ Main.refreshMiniCart (some url)
          (Main.FetchOutcome.response status Main.Body.null) s
        = Except.ok
            { miniCartBody := some
                ("\n        <div class=\"text-danger small p-3\">\n" ++
                  "          Error: respuesta inválida del servidor\n        </div>"),
              cartBadge := s.cartBadge }) := by
  have hu : strOr (some url) "" ≠ "" := by simp [strOr, hurl]
  have e1 : ∀ status : Nat, Main.statusErrorHtml status
      = "\n          <div class=\"text-danger small p-3\">\n" ++
        "            Error cargando carrito (" ++ natToString status ++
        ")\n          </div>" := by
    intro status
    simp [Main.statusErrorHtml, String.append_assoc]
  have e2 : Main.notLoadedHtml
      = "\n          <div class=\"text-danger small p-3\">\n" ++
        "            No se pudo cargar el carrito\n          </div>" := by decide
  have e3 : Main.invalidResponseHtml
      = "\n        <div class=\"text-danger small p-3\">\n" ++
        "          Error: respuesta inválida del servidor\n        </div>" := by decide
  refine ⟨?_, ?_, ?_⟩
  · intro status body hst
    rw [← e1]
    simp [Main.refreshMiniCart, Main.tryBlock, hu, hst, Main.setBody, hbody]
  · intro status data hst hok
    rw [← e2]
    simp [Main.refreshMiniCart, Main.tryBlock, hu, hst, hok, Main.setBody, hbody]
  · intro status hst
    rw [← e3]
    constructor <;>
      simp [Main.refreshMiniCart, Main.tryBlock, hu, hst, Main.setBody, hbody]

/-- C7 (amended), on a page whose badge shows `2`: status `500` ends with the
placeholder that names `500`, a body `{"ok": false}` under status `200` with
the could-not-load placeholder, a body that is not JSON with the
invalid-response placeholder; the badge still shows `2` each time. -/
theorem refresh_failure_absorbed_witness :
    ("/cart/summary/" : String) ≠ ""
    ∧ Main.refreshMiniCart (some "/cart/summary/")
        (Main.FetchOutcome.response 500 Main.Body.malformed) Main.sampleCart
      = Except.ok
          { miniCartBody := some
              ("\n          <div class=\"text-danger small p-3\">\n" ++
                "            Error cargando carrito (500)\n          </div>"),
            cartBadge := some { textContent := "2", hidden := false } }
    ∧ Main.refreshMiniCart (some "/cart/summary/")
        (Main.FetchOutcome.response 200
          (Main.Body.value
            { ok := Main.JsVal.bool false, cart_count := Main.JsVal.num (JSNum.ofInt 7),
              mini_cart_html := Main.JsVal.str "<ul></ul>" }))
        Main.sampleCart
      = Except.ok
          { miniCartBody := some
              ("\n          <div class=\"text-danger small p-3\">\n" ++
                "            No se pudo cargar el carrito\n          </div>"),
            cartBadge := some { textContent := "2", hidden := false } }
    ∧ Main.refreshMiniCart (some "/cart/summary/")
        (Main.FetchOutcome.response 200 Main.Body.malformed) Main.sampleCart
      = Except.ok
          { miniCartBody := some
              ("\n        <div class=\"text-danger small p-3\">\n" ++
                "          Error: respuesta inválida del servidor\n        </div>"),
            cartBadge := some { textContent := "2", hidden := false } } :=
  have h := refresh_failure_absorbed "/cart/summary/" (by decide) Main.sampleCart "" rfl
  ⟨by decide, (h.1 500 Main.Body.malformed (by decide)).trans rfl,
    h.2.1 200 _ (by decide) (by decide), (h.2.2 200 (by decide)).1⟩

/-! ### `checkout.js`: summary -/

namespace Checkout

theorem add_zero_right (x : JSNum) : x.add JSNum.zero = x := by
  cases x <;> simp [JSNum.add, JSNum.zero]

/-- The function `getShippingCost` computes the specified shipping cost. -/
theorem getShippingCost_eq_spec (p : Page) : getShippingCost p = specShippingCost p := by
  unfold getShippingCost specShippingCost
  by_cases hh : p.deliveryHome = some true
  · cases hz : p.zoneSelect with
    | none => simp [hh]
    | some sel =>
      cases ho : sel.selected with
      | none => simp [hh, zoneValue, ho]
      | some o =>
        by_cases hv : o.value = "" <;> simp [hh, zoneValue, ho, hv]
  · simp only [ne_eq, hh, not_false_eq_true, if_true]
    split
    · next h1 _ => exact absurd h1 hh
    · rfl

/-- On a number that is not `NaN`, `money` is `toFixed(2)`. -/
theorem money_eq_toFixed2 (x : JSNum) (hx : x ≠ JSNum.nan) : money x = toFixed2 x := by
  cases x with
  | nan => exact absurd rfl hx
  | inf neg => simp [money, parsePriceNum, JSNum.truthy, JSNum.isNaN]
  | dec m e =>
    by_cases hm : m = 0
    · subst hm
      have h1 : (10 : Nat) ^ e / (2 * 10 ^ e) = 0 :=
        Nat.div_eq_of_lt (by have : 0 < (10 : Nat) ^ e := by positivity
                             omega)
      simp [money, parsePriceNum, JSNum.truthy, JSNum.zero, toFixed2, h1]
    · simp [money, parsePriceNum, JSNum.truthy, JSNum.isNaN, hm]

/-- What `money` shows: `toFixed(2)` of a truthy number, `0.00` for `0` and
for `NaN`. -/
theorem money_cases (x : JSNum) : money x = if x.truthy then toFixed2 x else "0.00" := by
  unfold money parsePriceNum
  by_cases h : x.truthy = true
  · have hn : x.isNaN = false := by
      cases x <;> simp_all [JSNum.truthy, JSNum.isNaN]
    simp [h, hn]
  · have h0 : toFixed2 JSNum.zero = "0.00" := by decide
    simp [h, h0]

end Checkout

set_option maxRecDepth 8000 in
/-- C8 (counterexample).  Subtotal attribute `1e21` with pickup: the total is
shown as `1e+21`, not with two decimals.  Subtotal attribute `Infinity` with
home delivery and a zone of cost `-Infinity`: the shipping is shown as
`-Infinity` and the total, whose sum is `NaN`, as `0.00`. -/
theorem summary_total_not_two_decimals :
    (Checkout.updateSummary (Checkout.samplePageWith "1e21" "3.50" false)).totalEl
        = some "1e+21"
    ∧ Checkout.FIXED_SUBTOTAL (Checkout.samplePageWith "Infinity" "-Infinity" true)
        = JSNum.inf false
    ∧ Checkout.getShippingCost (Checkout.samplePageWith "Infinity" "-Infinity" true)
        = JSNum.inf true
    ∧ (Checkout.FIXED_SUBTOTAL (Checkout.samplePageWith "Infinity" "-Infinity" true)).add
        (Checkout.getShippingCost (Checkout.samplePageWith "Infinity" "-Infinity" true))
        = JSNum.nan
    ∧ (Checkout.updateSummary
        (Checkout.samplePageWith "Infinity" "-Infinity" true)).shippingEl = some "-Infinity"
    ∧ (Checkout.updateSummary
        (Checkout.samplePageWith "Infinity" "-Infinity" true)).totalEl = some "0.00" := by
  decide

/-- C8 (amended: checkout total).  Let `S` be `parsePrice` of the host's
`data-subtotal` attribute.  When home delivery is checked and the selected zone
option has a non-empty value, `updateSummary` shows `money (c)` as shipping
and `money (S + c)` as total, `c` being `parsePrice` of that option's
`data-cost`.  In every other case (home delivery not checked, as when pickup
is chosen; no zone select; no option selected; an option of empty value) it
shows `money (0)` as shipping and `money (S)` as total, whatever zone is
selected.  `money` is `toFixed(2)` on a truthy number and `0.00` on `0` and
`NaN`. -/
theorem checkout_total (p : Checkout.Page) (attr : Option String)
    (hsub : p.subtotalEl = some attr) :
    (∀ (sel : Select Checkout.ZoneOption) (o : Checkout.ZoneOption),
      p.deliveryHome = some true → p.zoneSelect = some sel → sel.selected = some o →
      o.value ≠ "" →
      (Checkout.updateSummary p).shippingEl
          = p.shippingEl.map (fun _ => Checkout.money (Checkout.parsePrice o.cost))
      ∧ (Checkout.updateSummary p).totalEl
          = p.totalEl.map (fun _ =>
              Checkout.money ((Checkout.parsePrice attr).add (Checkout.parsePrice o.cost))))
    ∧ ((p.deliveryHome ≠ some true ∨ p.zoneSelect = none
        ∨ ∃ sel : Select Checkout.ZoneOption, p.zoneSelect = some sel
            ∧ (sel.selected = none
              ∨ ∃ o : Checkout.ZoneOption, sel.selected = some o ∧ o.value = "")) →
      (Checkout.updateSummary p).shippingEl
          = p.shippingEl.map (fun _ => Checkout.money JSNum.zero)
      ∧ (Checkout.updateSummary p).totalEl
          = p.totalEl.map (fun _ => Checkout.money (Checkout.parsePrice attr)))
    ∧ (∀ x : JSNum, Checkout.money x = if x.truthy then toFixed2 x else "0.00") := by
  have hS : Checkout.FIXED_SUBTOTAL p = Checkout.parsePrice attr := by
    simp [Checkout.FIXED_SUBTOTAL, hsub]
  refine ⟨?_, ?_, Checkout.money_cases⟩
  · intro sel o hh hz ho hv
    have hc : Checkout.getShippingCost p = Checkout.parsePrice o.cost := by
      simp [Checkout.getShippingCost, hh, hz, Checkout.zoneValue, ho, hv]
    simp [Checkout.updateSummary, hc, hS]
  · intro h
    have hc : Checkout.getShippingCost p = JSNum.zero := by
      rcases h with h | h | ⟨sel, hz, h | ⟨o, ho, hv⟩⟩
      · simp [Checkout.getShippingCost, h]
      · unfold Checkout.getShippingCost
        split_ifs
        · rfl
        · simp [h]
      · unfold Checkout.getShippingCost
        split_ifs
        · rfl
        · simp [hz, Checkout.zoneValue, h]
      · unfold Checkout.getShippingCost
        split_ifs
        · rfl
        · simp [hz, Checkout.zoneValue, ho, hv]
    simp [Checkout.updateSummary, hc, hS, Checkout.add_zero_right]

/-- C8 (amended), on pages with subtotal `25.50` and the zones `norte` at
`3.50` and `sur` at `5`: home delivery to `norte` shows shipping `3.50` and
total `29.00`; pickup with `norte` still selected shows `0.00` and `25.50`;
home delivery with the empty zone choice shows `0.00` and `25.50`. -/
theorem checkout_total_witness :
    (Checkout.samplePage true 1).subtotalEl = some (some "25.50")
    ∧ ((Checkout.updateSummary (Checkout.samplePage true 1)).shippingEl = some "3.50"
      ∧ (Checkout.updateSummary (Checkout.samplePage true 1)).totalEl = some "29.00")
    ∧ ((Checkout.updateSummary (Checkout.samplePage false 1)).shippingEl = some "0.00"
      ∧ (Checkout.updateSummary (Checkout.samplePage false 1)).totalEl = some "25.50")
    ∧ ((Checkout.updateSummary (Checkout.samplePage true 0)).shippingEl = some "0.00"
      ∧ (Checkout.updateSummary (Checkout.samplePage true 0)).totalEl = some "25.50")
    ∧ Checkout.money (JSNum.dec 2950 2) = "29.50" :=
  have h1 := (checkout_total (Checkout.samplePage true 1) (some "25.50") rfl).1
    { options := [{ value := "", cost := none }, { value := "norte", cost := some "3.50" },
        { value := "sur", cost := some "5" }]
      selectedIndex := 1 }
    { value := "norte", cost := some "3.50" } rfl rfl rfl (by decide)
  have h2 := (checkout_total (Checkout.samplePage false 1) (some "25.50") rfl).2.1
    (Or.inl (by decide))
  have h3 := (checkout_total (Checkout.samplePage true 0) (some "25.50") rfl).2.1
    (Or.inr (Or.inr ⟨_, rfl, Or.inr ⟨{ value := "", cost := none }, rfl, rfl⟩⟩))
  ⟨rfl, ⟨h1.1.trans (by decide), h1.2.trans (by decide)⟩,
    ⟨h2.1.trans (by decide), h2.2.trans (by decide)⟩,
    ⟨h3.1.trans (by decide), h3.2.trans (by decide)⟩,
    ((checkout_total (Checkout.samplePage true 1) (some "25.50") rfl).2.2
      (JSNum.dec 2950 2)).trans (by decide)⟩

/-! ### Numeric coercion and stock tier in `refreshDetail` -/

namespace ProductDetail

/-- In `updateUI` the price and the line total handed to `toFixed` are never
`NaN`, whatever the attribute and field texts. -/
theorem updateUI_numbers_not_nan (opt : VariantOption) (value : String) :
    readPrice opt ≠ JSNum.nan
    ∧ (readPrice opt).mul (JSNum.ofInt (validateQty (readStock opt) value).1) ≠ JSNum.nan := by
  have hp : readPrice opt ≠ JSNum.nan := by
    unfold readPrice JSNum.orElse
    split_ifs with h
    · intro hn
      rw [hn] at h
      exact absurd h (by decide)
    · exact fun hn => JSNum.noConfusion hn
  have hq : (validateQty (readStock opt) value).1 ≠ 0 := by
    unfold validateQty
    simp only
    split_ifs with c
    · simp only; omega
    · simp only [intOr]
      split
      · split_ifs with h0
        · decide
        · exact h0
      · decide
  refine ⟨hp, ?_⟩
  cases hr : readPrice opt with
  | nan => exact absurd hr hp
  | inf neg => simp [JSNum.mul, JSNum.ofInt, hq]
  | dec m e => simp [JSNum.mul, JSNum.ofInt]

end ProductDetail

namespace Main

/-- The stock hint and the add button of `refreshDetail` for a stock attribute
that reads as the integer `n`: no stock up to `0`, the last-units message from
`1` to `5`, the plain message from `6` on. -/
theorem refreshDetail_tier (s : DetailPage) (sel : Select VariantOption) (n : Int)
    (hsel : s.sel = some sel) (hn : detailStock sel.selected = JSNum.ofInt n) :
    (refreshDetail s).stockHint = s.stockHint.map (fun _ =>
        if n ≤ 0 then "Sin stock en esta variante."
        else if n ≤ 5 then "¡Últimas unidades! Stock disponible: " ++ numToString (JSNum.ofInt n)
        else "Stock disponible: " ++ numToString (JSNum.ofInt n))
    ∧ (refreshDetail s).addBtn = s.addBtn.map (fun _ =>
        { disabled := decide (n ≤ 0), classDisabled := decide (n ≤ 0) }) := by
  simp [refreshDetail, hsel, hn, stockHintText, JSNum.le, JSNum.ofInt, JSNum.zero]

end Main

/-- C9 (code bug), the failing input: the stock attribute `abc` for
`refreshDetail` of `main.js`.  `Number("abc")` is `NaN` and nothing replaces it:
the stock hint reads `Stock disponible: NaN` and the add button is enabled.
The price attribute `abc` is caught by `formatMoneyDetail` (`0.00`), and
`updateUI` of `product-detail.js` reads the same stock attribute as `0`. -/
theorem refreshDetail_nan_stock :
    Main.detailStock (some { price := some "19.99", stock := some "abc" }) = JSNum.nan
    ∧ (Main.refreshDetail (Main.sampleDetail "19.99" "abc" "2")).stockHint
        = some "Stock disponible: NaN"
    ∧ (Main.refreshDetail (Main.sampleDetail "19.99" "abc" "2")).addBtn
        = some { disabled := false, classDisabled := false }
    ∧ (Main.refreshDetail (Main.sampleDetail "abc" "3" "2")).priceText = "0.00"
    ∧ (Main.refreshDetail (Main.sampleDetail "abc" "3" "2")).lineTotalText = "0.00"
    ∧ ProductDetail.readStock { price := some "19.99", stock := some "abc" } = 0
    ∧ (ProductDetail.updateUI (ProductDetail.samplePage "19.99" "abc" "2")).stockHint
        = some ProductDetail.outOfStockHtml
    ∧ (ProductDetail.updateUI (ProductDetail.samplePage "19.99" "abc" "2")).addBtn
        = some true := by
  decide

/-- C10 (code bug), the failing input: the stock attribute `5` for
`refreshDetail` of `main.js`.  The hint is the last-units message, where
`updateUI` of `product-detail.js` shows the plain available message; at `4`
and at `6` the two scripts agree on the tier. -/
theorem refreshDetail_low_stock_at_five :
    Main.detailStock (some { price := some "19.99", stock := some "5" }) = JSNum.ofInt 5
    ∧ (Main.refreshDetail (Main.sampleDetail "19.99" "5" "1")).stockHint
        = some "¡Últimas unidades! Stock disponible: 5"
    ∧ (ProductDetail.updateUI (ProductDetail.samplePage "19.99" "5" "1")).stockHint
        = some (ProductDetail.availableHtml 5)
    ∧ (Main.refreshDetail (Main.sampleDetail "19.99" "4" "1")).stockHint
        = some "¡Últimas unidades! Stock disponible: 4"
    ∧ (Main.refreshDetail (Main.sampleDetail "19.99" "6" "1")).stockHint
        = some "Stock disponible: 6"
    ∧ (Main.refreshDetail (Main.sampleDetail "19.99" "0" "1")).stockHint
        = some "Sin stock en esta variante."
    ∧ (Main.refreshDetail (Main.sampleDetail "19.99" "0" "1")).addBtn
        = some { disabled := true, classDisabled := true } := by
  decide

/-! ### `checkout.js`: the transfer link -/

namespace Checkout

@[simp] theorem updatePaymentUI_toPage (s : PayPage) : (updatePaymentUI s).toPage = s.toPage := by
  unfold updatePaymentUI
  split
  · rfl
  · split_ifs <;> rfl

/-- Running `updateSummary` twice is running it once: it reads neither of the
two texts it writes. -/
theorem updateSummary_idem (p : Page) : updateSummary (updateSummary p) = updateSummary p := by
  have h1 : getShippingCost (updateSummary p) = getShippingCost p := rfl
  have h2 : FIXED_SUBTOTAL (updateSummary p) = FIXED_SUBTOTAL p := rfl
  unfold updateSummary
  simp only [Option.map_map]
  rfl

/-- After initialisation and every sequence of events the summary is current:
running `updateSummary` again changes nothing, so the total shown is the
subtotal plus the shipping cost of the delivery mode and zone now selected. -/
theorem summary_current (page : PayPage) (events : List Event) :
    updateSummary (run page events).toPage = (run page events).toPage
    ∧ (run page events).totalEl = (run page events).totalEl.map (fun _ =>
        money ((FIXED_SUBTOTAL (run page events).toPage).add
          (getShippingCost (run page events).toPage))) := by
  have key : updateSummary (run page events).toPage = (run page events).toPage := by
    have hinit : updateSummary (init page).toPage = (init page).toPage := by
      simp only [init, updatePaymentUI_toPage, updateDeliveryUI, PayPage.updateSummary]
      exact updateSummary_idem _
    unfold run
    generalize init page = s at hinit
    induction events generalizing s with
    | nil => exact hinit
    | cons e es ih =>
      apply ih
      cases e with
      | deliveryChange home =>
        simp only [step]
        split
        · exact hinit
        · simp only [updateDeliveryUI, PayPage.updateSummary]
          exact updateSummary_idem _
      | zoneChange i =>
        simp only [step]
        split
        · exact hinit
        · simp only [PayPage.updateSummary]
          exact updateSummary_idem _
      | paymentChange v =>
        simp only [step]
        split
        · exact hinit
        · simp only [updatePaymentUI_toPage]
          exact hinit
  refine ⟨key, ?_⟩
  have h := congrArg Page.totalEl key
  simp only [updateSummary] at h
  exact h.symm

/-- The link `updatePaymentUI` writes for the method `transferencia` carries
the total shown at that moment. -/
theorem updatePaymentUI_link (s : PayPage) (h : s.paySelect = some "transferencia") :
    (updatePaymentUI s).btnWhatsapp
        = s.btnWhatsapp.map (fun _ => whatsappHref (s.totalEl.getD "0.00"))
    ∧ (updatePaymentUI s).paySelect = some "transferencia" := by
  unfold updatePaymentUI
  simp only [h, if_true]
  cases s.totalEl <;> exact ⟨rfl, trivial⟩

/-- Right after initialisation, and right after a payment-method change to
`transferencia`, the link carries the total shown. -/
theorem link_current_after_payment_change (page : PayPage) (events : List Event) :
    (page.paySelect = some "transferencia" →
      (init page).btnWhatsapp
        = page.btnWhatsapp.map (fun _ => whatsappHref ((init page).totalEl.getD "0.00")))
    ∧ ((run page events).paySelect ≠ none →
      (run page (events ++ [Event.paymentChange "transferencia"])).btnWhatsapp
        = (run page events).btnWhatsapp.map (fun _ => whatsappHref
            ((run page (events ++ [Event.paymentChange "transferencia"])).totalEl.getD
              "0.00"))) := by
  constructor
  · intro h
    have hp : (updateDeliveryUI page).paySelect = some "transferencia" := h
    have := (updatePaymentUI_link (updateDeliveryUI page) hp).1
    simp only [init]
    rw [this]
    have e1 : (updatePaymentUI (updateDeliveryUI page)).totalEl
        = (updateDeliveryUI page).totalEl := congrArg Page.totalEl (updatePaymentUI_toPage _)
    rw [e1]
    rfl
  · intro h
    obtain ⟨v, hv⟩ := Option.ne_none_iff_exists'.mp h
    simp only [run, List.foldl_append, List.foldl_cons, List.foldl_nil]
    have hs : step (List.foldl step (init page) events) (Event.paymentChange "transferencia")
        = updatePaymentUI
            { List.foldl step (init page) events with paySelect := some "transferencia" } := by
      have hv' : (List.foldl step (init page) events).paySelect = some v := hv
      simp only [step, hv']
    rw [hs]
    have := (updatePaymentUI_link
      { List.foldl step (init page) events with paySelect := some "transferencia" } rfl).1
    rw [this]
    have e1 : (updatePaymentUI
        { List.foldl step (init page) events with paySelect := some "transferencia" }).totalEl
        = (List.foldl step (init page) events).totalEl :=
      congrArg Page.totalEl (updatePaymentUI_toPage _)
    rw [e1]

end Checkout

set_option maxRecDepth 8000 in
/-- C11 (code bug), the failing input: subtotal `25.50`, home delivery checked,
zone `norte` (cost `3.50`) and payment method `transferencia` at load, then the
zone changed to `sur` (cost `5`).  The summary shows the total `30.50`, the
payment method is still `transferencia`, and the link still carries `29.00`:
the zone listener runs `updateSummary` only.  The same happens when the
delivery mode is changed to pickup: total `25.50`, link `29.00`.  Choosing the
payment method again writes the link for the total shown. -/
theorem whatsapp_link_stale_after_zone_change :
    (Checkout.init (Checkout.samplePayPage true 1 "transferencia")).totalEl = some "29.00"
    ∧ (Checkout.init (Checkout.samplePayPage true 1 "transferencia")).btnWhatsapp
        = some (Checkout.whatsappHref "29.00")
    ∧ (Checkout.run (Checkout.samplePayPage true 1 "transferencia")
        [Checkout.Event.zoneChange 2]).paySelect = some "transferencia"
    ∧ (Checkout.run (Checkout.samplePayPage true 1 "transferencia")
        [Checkout.Event.zoneChange 2]).totalEl = some "30.50"
    ∧ (Checkout.run (Checkout.samplePayPage true 1 "transferencia")
        [Checkout.Event.zoneChange 2]).btnWhatsapp
        = some ("https://wa.me/593999519375?text=Hola%2C%20realic%C3%A9%20un%20pedido" ++
            "%20por%20%2429.00%20y%20adjunto%20el%20comprobante%20de%20transferencia.")
    ∧ (Checkout.run (Checkout.samplePayPage true 1 "transferencia")
        [Checkout.Event.zoneChange 2]).btnWhatsapp
        ≠ some (Checkout.whatsappHref "30.50")
    ∧ (Checkout.run (Checkout.samplePayPage true 1 "transferencia")
        [Checkout.Event.deliveryChange false]).totalEl = some "25.50"
    ∧ (Checkout.run (Checkout.samplePayPage true 1 "transferencia")
        [Checkout.Event.deliveryChange false]).btnWhatsapp
        = some (Checkout.whatsappHref "29.00")
    ∧ (Checkout.run (Checkout.samplePayPage true 1 "transferencia")
        [Checkout.Event.zoneChange 2,
          Checkout.Event.paymentChange "transferencia"]).btnWhatsapp
        = some (Checkout.whatsappHref "30.50") := by
  decide
